import Mathlib

/-!
Shallow embedding of the nemulator Game Boy emulator core
(src/registers.rs, src/timer.rs, src/memory.rs, src/ppu.rs, src/cpu.rs)
and proofs about its specification claims.

Machine integers are modelled as `Nat` with explicit `% 2^w` where the
source relies on wrapping; `u8`/`u16` fields hold values below 256/65536
in every reachable state, and theorems carry those bounds as hypotheses
where they matter.  Rust array indexing (which panics when out of bounds)
is modelled by `Option`-returning checked accessors; the total wrappers
`Memory.read`/`Memory.write` are justified by the totality theorem for the
checked versions (claim C6).
-/

set_option maxRecDepth 4000

namespace Nemulator

/-- Swap the elements at positions `i` and `j` of a list (Vec::swap). -/
def listSwap (l : List α) (i j : Nat) : List α :=
  match l.get? i, l.get? j with
  | some a, some b => (l.set i b).set j a
  | _, _ => l

/-! ## registers.rs -/

/-- registers.rs `Reg`. -/
inductive Reg | A | F | B | C | D | E | H | L
deriving DecidableEq

/-- registers.rs `RegW`. -/
inductive RegW | AF | BC | DE | HL
deriving DecidableEq

/-- registers.rs `Flag`. -/
inductive Flag | Z | N | C | H
deriving DecidableEq

/-- registers.rs `Registers`: eight 8-bit registers. -/
structure Registers where
  A : Nat
  F : Nat
  B : Nat
  C : Nat
  D : Nat
  E : Nat
  H : Nat
  L : Nat
deriving DecidableEq

/-- Registers::new boot values. -/
def Registers.new : Registers :=
  { A := 0x01, F := 0xB0, B := 0x00, C := 0x13,
    D := 0x00, E := 0xD8, H := 0x01, L := 0x4D }

/-- Registers::get_reg. -/
def Registers.get_reg (r : Registers) : Reg → Nat
  | Reg.A => r.A
  | Reg.F => r.F
  | Reg.B => r.B
  | Reg.C => r.C
  | Reg.D => r.D
  | Reg.E => r.E
  | Reg.H => r.H
  | Reg.L => r.L

/-- Registers::get_regW: `(hi as u16) << 8 | lo as u16` (disjoint bytes, so `|` is `+`). -/
def Registers.get_regW (r : Registers) : RegW → Nat
  | RegW.AF => r.A * 256 + r.F
  | RegW.BC => r.B * 256 + r.C
  | RegW.DE => r.D * 256 + r.E
  | RegW.HL => r.H * 256 + r.L

/-- Registers::set_reg. -/
def Registers.set_reg (r : Registers) (dst : Reg) (src : Nat) : Registers :=
  match dst with
  | Reg.A => { r with A := src }
  | Reg.F => { r with F := src }
  | Reg.B => { r with B := src }
  | Reg.C => { r with C := src }
  | Reg.D => { r with D := src }
  | Reg.E => { r with E := src }
  | Reg.H => { r with H := src }
  | Reg.L => { r with L := src }

/-- Registers::set_regW: high byte `(src >> 8) as u8`, low byte `src as u8`. -/
def Registers.set_regW (r : Registers) (dst : RegW) (src : Nat) : Registers :=
  match dst with
  | RegW.AF => { r with A := src / 256 % 256, F := src % 256 }
  | RegW.BC => { r with B := src / 256 % 256, C := src % 256 }
  | RegW.DE => { r with D := src / 256 % 256, E := src % 256 }
  | RegW.HL => { r with H := src / 256 % 256, L := src % 256 }

/-- Registers::get_flag: note the source maps C to bit 5 and H to bit 4 here. -/
def Registers.get_flag (r : Registers) (f : Flag) : Bool :=
  let src := match f with
    | Flag.Z => 0b10000000
    | Flag.N => 0b01000000
    | Flag.C => 0b00100000
    | Flag.H => 0b00010000
  r.F &&& src != 0

/-- Registers::set_flag: note the source maps H to bit 5 and C to bit 4 here
(the opposite assignment to `get_flag`). `!src` on a u8 is `255 ^^^ src`. -/
def Registers.set_flag (r : Registers) (f : Flag) (set : Bool) : Registers :=
  let src := match f with
    | Flag.Z => 0b10000000
    | Flag.N => 0b01000000
    | Flag.H => 0b00100000
    | Flag.C => 0b00010000
  if set then { r with F := r.F ||| src }
  else { r with F := r.F &&& (255 ^^^ src) }

/-! ## cpu.rs flag evaluation helpers (impl Eval for u8) -/

/-- cpu.rs `u8::eval_h_add`: half-carry of an 8-bit add. -/
def eval_h_add8 (a b : Nat) : Bool := ((a % 16 + b % 16) &&& 0x10) = 0x10

/-- cpu.rs `u8::eval_c_add`: full carry of an 8-bit add,
`(a.wrapping_add(b)) < a || (a.wrapping_add(b)) < b`. -/
def eval_c_add8 (a b : Nat) : Bool := (a + b) % 256 < a || (a + b) % 256 < b

/-- cpu.rs `u8::eval_h_sub`: half-borrow of an 8-bit subtract. -/
def eval_h_sub8 (a b : Nat) : Bool := a % 16 < b % 16

/-- cpu.rs `u8::eval_c_sub`: borrow of an 8-bit subtract
(`(a as i16 - b as i16) < 0`). -/
def eval_c_sub8 (a b : Nat) : Bool := a < b

/-! ## timer.rs -/

/-- timer.rs `Timer`. -/
structure Timer where
  sysclk : Nat
  tima : Nat
  tma : Nat
  tac : Nat
  last_bit : Nat
  tima_reload_cycle : Bool
  tima_cycles_to_irq : Nat
  tima_overflow_irq : Bool
deriving DecidableEq

/-- Timer::new. -/
def Timer.new : Timer :=
  { sysclk := 0, tima := 0, tma := 0, tac := 0, last_bit := 0,
    tima_reload_cycle := false, tima_cycles_to_irq := 0,
    tima_overflow_irq := false }

/-- Timer::sysclk_change's derived bit: the sysclk bit selected by the 2-bit
rate selector of TAC (0 → bit 9, 3 → bit 7, 2 → bit 5, 1 → bit 3; the
selector is `tac & 3` so no other case exists), ANDed with the TAC enable
bit (`(tac & 4) >> 2`). -/
def derived_bit (tac sysclk : Nat) : Nat :=
  let clock_speed := tac % 4
  let b :=
    if clock_speed = 0 then (sysclk >>> 9) &&& 1
    else if clock_speed = 3 then (sysclk >>> 7) &&& 1
    else if clock_speed = 2 then (sysclk >>> 5) &&& 1
    else (sysclk >>> 3) &&& 1
  b &&& ((tac &&& 4) >>> 2)

/-- Timer::fallen_edge: on a 1 → 0 transition increment TIMA (wrapping);
on wrap to 0 arm the delayed overflow. -/
def Timer.fallen_edge (t : Timer) (before after : Nat) : Timer :=
  if before = 1 ∧ after = 0 then
    let tima := (t.tima + 1) % 256
    if tima = 0 then { t with tima := tima, tima_cycles_to_irq := 1 }
    else { t with tima := tima }
  else t

/-- Timer::sysclk_change: store the new sysclk, recompute the derived bit,
apply the falling-edge rule against `last_bit`, remember the new bit. -/
def Timer.sysclk_change (t : Timer) (new_sysclk : Nat) : Timer :=
  let t1 := { t with sysclk := new_sysclk }
  let current_bit := derived_bit t1.tac new_sysclk
  let t2 := t1.fallen_edge t1.last_bit current_bit
  { t2 with last_bit := current_bit }

/-- Timer::inc_sysclk: clear the reload-cycle marker, run the delayed
overflow countdown (reload TIMA from TMA and raise the overflow interrupt
when it hits 0), then advance sysclk by 4 (t-cycles). -/
def Timer.inc_sysclk (t : Timer) : Timer :=
  let t1 := { t with tima_reload_cycle := false }
  let t2 :=
    if t1.tima_cycles_to_irq > 0 then
      let n := t1.tima_cycles_to_irq - 1
      if n = 0 then
        { t1 with tima_cycles_to_irq := n, tima_overflow_irq := true,
                  tima := t1.tma, tima_reload_cycle := true }
      else { t1 with tima_cycles_to_irq := n }
    else t1
  t2.sysclk_change ((t2.sysclk + 4) % 65536)

/-- Timer::write_io over the four timer-mapped addresses (other addresses
are unreachable in the source; modelled as the identity). -/
def Timer.write_io (t : Timer) (addr val : Nat) : Timer :=
  if addr = 0xFF04 then
    t.sysclk_change 0
  else if addr = 0xFF05 then
    let t1 := if !t.tima_reload_cycle then { t with tima := val } else t
    if t1.tima_cycles_to_irq = 1 then { t1 with tima_cycles_to_irq := 0 } else t1
  else if addr = 0xFF06 then
    let t1 := if t.tima_reload_cycle then { t with tima := val } else t
    { t1 with tma := val }
  else if addr = 0xFF07 then
    let last_bit := t.last_bit
    let t1 := { t with last_bit := t.last_bit &&& ((val &&& 4) >>> 2) }
    let t2 := t1.fallen_edge last_bit t1.last_bit
    { t2 with tac := val }
  else t

/-- Timer::read_io (other addresses are unreachable in the source). -/
def Timer.read_io (t : Timer) (addr : Nat) : Nat :=
  if addr = 0xFF04 then (t.sysclk >>> 8) % 256
  else if addr = 0xFF05 then t.tima
  else if addr = 0xFF06 then t.tma
  else if addr = 0xFF07 then t.tac
  else 0

/-! ## memory.rs -/

/-- memory.rs `KIB`. -/
def KIB : Nat := 1024

/-- memory.rs `Memory`: each region is a byte array, modelled as a total
function with its length tracked by the checked accessors below.
`serial_out` records the bytes the serial-divert arm of `write` prints
(the diagnostic byte sink); the source field `extern_ram` is named
`ext_ram` here. -/
structure Memory where
  rom_bank_0 : Nat → Nat
  rom_bank_n : Nat → Nat
  vram : Nat → Nat
  ext_ram : Nat → Nat
  ram_bank_0 : Nat → Nat
  ram_bank_1 : Nat → Nat
  mirror : Nat → Nat
  oam : Nat → Nat
  io_registers : Nat → Nat
  hram : Nat → Nat
  ie_register : Nat
  serial_out : List Nat

/-- Memory::new: all regions zeroed. -/
def Memory.new : Memory :=
  { rom_bank_0 := fun _ => 0, rom_bank_n := fun _ => 0, vram := fun _ => 0,
    ext_ram := fun _ => 0, ram_bank_0 := fun _ => 0, ram_bank_1 := fun _ => 0,
    mirror := fun _ => 0, oam := fun _ => 0, io_registers := fun _ => 0,
    hram := fun _ => 0, ie_register := 0, serial_out := [] }

/-- Checked array read `r[i]` for an array of length `size`: `none` models
the Rust index panic. -/
def idx_chk (r : Nat → Nat) (size i : Nat) : Option Nat :=
  if i < size then some (r i) else none

/-- Checked array write `r[i] = v` for an array of length `size`. -/
def upd_chk (r : Nat → Nat) (size i v : Nat) : Option (Nat → Nat) :=
  if i < size then some (Function.update r i v) else none

/-- Memory::read with the implicit array-bound panics made explicit; the
match arms appear in source order, the final wildcard logs and returns 0. -/
def Memory.read_chk (m : Memory) (address : Nat) : Option Nat :=
  if address ≤ 0x3FFF then idx_chk m.rom_bank_0 (16*KIB) address
  else if address ≤ 0x7FFF then idx_chk m.rom_bank_n (496*KIB) (address - 0x4000)
  else if address ≤ 0x9FFF then idx_chk m.vram (8*KIB) (address - 0x8000)
  else if address ≤ 0xBFFF then idx_chk m.ext_ram (8*KIB) (address - 0xA000)
  else if address ≤ 0xCFFF then idx_chk m.ram_bank_0 (4*KIB) (address - 0xC000)
  else if address ≤ 0xDFFF then idx_chk m.ram_bank_1 (4*KIB) (address - 0xD000)
  else if address ≤ 0xFDFF then idx_chk m.mirror (0xFDFF - 0xE000 + 1) (address - 0xE000)
  else if address ≤ 0xFE9F then idx_chk m.oam (0xFE9F - 0xFE00 + 1) (address - 0xFE00)
  else if 0xFF00 ≤ address ∧ address ≤ 0xFF7F then
    idx_chk m.io_registers (0xFF7F - 0xFF00 + 1) (address - 0xFF00)
  else if 0xFF80 ≤ address ∧ address ≤ 0xFFFE then
    idx_chk m.hram (0xFFFE - 0xFF80 + 1) (address - 0xFF80)
  else if address = 0xFFFF then some m.ie_register
  else some 0

/-- Total Memory::read; the checked version is proven total (claim C6),
so reading off the `Option` loses nothing. -/
def Memory.read (m : Memory) (address : Nat) : Nat :=
  (m.read_chk address).getD 0

/-- Memory::dma_transfer's source page: `0xFE`/`0xFF` are remapped to the
echo-RAM pages `0xDE00`/`0xDF00`, any other value gives
`(address as u16).wrapping_mul(0x100)`. -/
def dma_src (address : Nat) : Nat :=
  if address = 0xFE then 0xDE00
  else if address = 0xFF then 0xDF00
  else (address * 0x100) % 65536

/-- Memory::dma_transfer's copy loop after `n` iterations: iteration `i`
reads `val + i` and stores the byte at `oam[i]`. -/
def Memory.dma_loop (m : Memory) (base : Nat) : Nat → Option Memory
  | 0 => some m
  | n + 1 =>
    (m.dma_loop base n).bind fun m1 =>
      (m1.read_chk (base + n)).map fun data =>
        { m1 with oam := Function.update m1.oam n data }

/-- Memory::dma_transfer: copy 160 bytes from the source page into OAM. -/
def Memory.dma_transfer (m : Memory) (address : Nat) : Option Memory :=
  m.dma_loop (dma_src address) 160

/-- Memory::write with the implicit array-bound panics made explicit; the
match arms appear in source order: the `0xFF01` arm diverts the byte to
the diagnostic sink when the serial-control register reads exactly `0x81`,
the `0xFF46` arm runs the DMA transfer, and the wildcard (which covers the
ROM range and the unusable gap) logs and leaves the state unchanged. -/
def Memory.write_chk (m : Memory) (address data : Nat) : Option Memory :=
  if 0x8000 ≤ address ∧ address ≤ 0x9FFF then
    (upd_chk m.vram (8*KIB) (address - 0x8000) data).map fun r => { m with vram := r }
  else if 0xA000 ≤ address ∧ address ≤ 0xBFFF then
    (upd_chk m.ext_ram (8*KIB) (address - 0xA000) data).map fun r => { m with ext_ram := r }
  else if 0xC000 ≤ address ∧ address ≤ 0xCFFF then
    (upd_chk m.ram_bank_0 (4*KIB) (address - 0xC000) data).map fun r => { m with ram_bank_0 := r }
  else if 0xD000 ≤ address ∧ address ≤ 0xDFFF then
    (upd_chk m.ram_bank_1 (4*KIB) (address - 0xD000) data).map fun r => { m with ram_bank_1 := r }
  else if 0xE000 ≤ address ∧ address ≤ 0xFDFF then
    (upd_chk m.mirror (0xFDFF - 0xE000 + 1) (address - 0xE000) data).map fun r => { m with mirror := r }
  else if 0xFE00 ≤ address ∧ address ≤ 0xFE9F then
    (upd_chk m.oam (0xFE9F - 0xFE00 + 1) (address - 0xFE00) data).map fun r => { m with oam := r }
  else if address = 0xFF01 then
    (m.read_chk 0xFF02).bind fun c =>
      if c = 0x81 then some { m with serial_out := m.serial_out ++ [data] }
      else
        (upd_chk m.io_registers (0xFF7F - 0xFF00 + 1) (address - 0xFF00) data).map
          fun r => { m with io_registers := r }
  else if address = 0xFF46 then
    m.dma_transfer data
  else if 0xFF00 ≤ address ∧ address ≤ 0xFF7F then
    (upd_chk m.io_registers (0xFF7F - 0xFF00 + 1) (address - 0xFF00) data).map
      fun r => { m with io_registers := r }
  else if 0xFF80 ≤ address ∧ address ≤ 0xFFFE then
    (upd_chk m.hram (0xFFFE - 0xFF80 + 1) (address - 0xFF80) data).map
      fun r => { m with hram := r }
  else if address = 0xFFFF then some { m with ie_register := data }
  else some m

/-- Total Memory::write; the checked version is proven total (claim C6). -/
def Memory.write (m : Memory) (address data : Nat) : Memory :=
  (m.write_chk address data).getD m

/-! ## ppu.rs data model

The SDL renderer is a host collaborator; only its `displaybuffer` byte
vector (written by the PPU) is modelled, as a total function. -/

/-- ppu.rs `Sprite`. -/
structure Sprite where
  y : Nat
  x : Nat
  index : Nat
  attributes : Nat
deriving DecidableEq

/-- ppu.rs `SpritePixel`. -/
structure SpritePixel where
  colour_id : Nat
  palette : Nat
  priority : Nat
deriving DecidableEq

/-- ppu.rs `BackgroundPixel`. -/
structure BackgroundPixel where
  colour_id : Nat
  palette : Nat
deriving DecidableEq

/-- ppu.rs `FetcherState`. -/
inductive FetcherState | TileNumber | TileDataLow | TileDataHigh | PushToFifo
deriving DecidableEq

/-- ppu.rs `Queue<T>` is a singly linked FIFO whose `end` field is the
front; `add` appends at the back, `remove` pops the front, `clear` empties
it.  It is modelled as a `List` with the front at the head. -/
def Queue (α : Type) : Type := List α

/-- ppu.rs `PixelFetcher`. -/
structure PixelFetcher where
  fetcher_x : Nat
  window_line_counter : Nat
  tile_number : Nat
  tile_data_low : Nat
  tile_data_high : Nat
  sprite_tile_data_low : Nat
  sprite_tile_data_high : Nat
  rendering_window : Bool
  cycles : Nat
  bgwin_state : FetcherState
  sprite_state : FetcherState
  first_tile : Bool
  sprite_fifo : List SpritePixel
  bgwin_fifo : List BackgroundPixel

/-- PixelFetcher::new. -/
def PixelFetcher.new : PixelFetcher :=
  { fetcher_x := 0, window_line_counter := 0, tile_number := 0,
    tile_data_low := 0, tile_data_high := 0, sprite_tile_data_low := 0,
    sprite_tile_data_high := 0, rendering_window := false, cycles := 0,
    bgwin_state := FetcherState.TileNumber, sprite_state := FetcherState.TileNumber,
    first_tile := false, sprite_fifo := [], bgwin_fifo := [] }

/-- PixelFetcher::fetch_tile_number.  All inner arithmetic is u8
(`wrapping_div`/`wrapping_mul`/`wrapping_add`), widened to u16 before the
tile-map base is added. -/
def PixelFetcher.fetch_tile_number (f : PixelFetcher) (m : Memory) (ly : Nat) : PixelFetcher :=
  let address :=
    if f.rendering_window then
      let tilemap := if m.read 0xFF40 &&& 0b01000000 = 0 then 0x9800 else 0x9C00
      let offset := ((f.window_line_counter / 8 * 32) % 256 + (f.fetcher_x &&& 0x1F)) % 256 &&& 0x3FFF
      tilemap + offset
    else
      let tilemap := if m.read 0xFF40 &&& 0b00001000 = 0 then 0x9800 else 0x9C00
      let scy := m.read 0xFF42
      let scx := m.read 0xFF43
      let offset := (((((ly + scy) % 256) >>> 3) &&& 31) * 32
          + (((f.fetcher_x + (scx >>> 3)) % 256) &&& 31)) % 65536
      tilemap + offset
  { f with tile_number := m.read address }

/-- PixelFetcher::fetch_tile_data_low. -/
def PixelFetcher.fetch_tile_data_low (f : PixelFetcher) (m : Memory) (ly : Nat) : PixelFetcher :=
  let tile_address :=
    if m.read 0xFF40 &&& 0b00010000 = 0 ∧ f.tile_number < 128 then
      0x9000 + f.tile_number * 16
    else 0x8000 + f.tile_number * 16
  let scy := m.read 0xFF42
  let offset :=
    if f.rendering_window then 2 * (f.window_line_counter % 8)
    else 2 * ((ly + scy) % 256 % 8)
  let byte_address := (tile_address + offset) % 65536
  { f with tile_data_low := m.read byte_address }

/-- PixelFetcher::fetch_tile_data_high; the trailing `first_tile` reset of
`bgwin_state` is overwritten by the caller in mode_3_bgwin_fetch, exactly
as in the source. -/
def PixelFetcher.fetch_tile_data_high (f : PixelFetcher) (m : Memory) (ly : Nat) : PixelFetcher :=
  let tile_address :=
    if m.read 0xFF40 &&& 0b00010000 = 0 ∧ f.tile_number < 128 then
      0x9000 + f.tile_number * 16
    else 0x8000 + f.tile_number * 16
  let scy := m.read 0xFF42
  let offset :=
    if f.rendering_window then 2 * (f.window_line_counter % 8)
    else 2 * ((ly + scy) % 256 % 8)
  let byte_address := (tile_address + offset) % 65536
  let f1 := { f with tile_data_high := m.read ((byte_address + 1) % 65536) }
  if f1.first_tile then
    { f1 with first_tile := false, bgwin_state := FetcherState.TileNumber }
  else f1

/-- PixelFetcher::push_to_fifo: when the background FIFO is empty, decode
and enqueue 8 two-bit pixels and advance the fetcher's tile column;
returns the success flag. -/
def PixelFetcher.push_to_fifo (f : PixelFetcher) : PixelFetcher × Bool :=
  if f.bgwin_fifo.isEmpty then
    let pixels := (List.range 8).map fun pixel_number =>
      let colour_high := ((f.tile_data_high &&& (0b10000000 >>> pixel_number)) >>> (7 - pixel_number)) <<< 1
      let colour_low := (f.tile_data_low &&& (0b10000000 >>> pixel_number)) >>> (7 - pixel_number)
      BackgroundPixel.mk (colour_high ||| colour_low) 0xFF47
    ({ f with bgwin_fifo := f.bgwin_fifo ++ pixels,
              fetcher_x := (f.fetcher_x + 1) % 256 }, true)
  else (f, false)

/-- PixelFetcher::sprite_fetch_tile_data_low. -/
def PixelFetcher.sprite_fetch_tile_data_low (f : PixelFetcher) (m : Memory) (ly : Nat)
    (sprite : Sprite) : PixelFetcher :=
  let tile_address := 0x8000 + sprite.index * 16
  let height := if m.read 0xFF40 &&& 0x4 = 0 then 8 else 16
  let offset := ((ly + 65536 - (sprite.y + 65536 - 16) % 65536) % 65536 % height) * 2
  let y_flip := (sprite.attributes >>> 6) &&& 1
  let offset := if y_flip = 1 then (height - 1) * 2 - offset else offset
  let byte_address := (tile_address + offset) % 65536
  { f with sprite_tile_data_low := m.read byte_address }

/-- PixelFetcher::sprite_fetch_tile_data_high. -/
def PixelFetcher.sprite_fetch_tile_data_high (f : PixelFetcher) (m : Memory) (ly : Nat)
    (sprite : Sprite) : PixelFetcher :=
  let tile_address := 0x8000 + sprite.index * 16
  let height := if m.read 0xFF40 &&& 0x4 = 0 then 8 else 16
  let offset := ((ly + 65536 - (sprite.y + 65536 - 16) % 65536) % 65536 % height) * 2
  let y_flip := (sprite.attributes >>> 6) &&& 1
  let offset := if y_flip = 1 then (height - 1) * 2 - offset else offset
  let byte_address := (tile_address + offset) % 65536
  { f with sprite_tile_data_high := m.read ((byte_address + 1) % 65536) }

/-- PixelFetcher::push_to_sprite_fifo: fill the sprite FIFO up to 8
pixels, decoding from the fetched bytes with optional horizontal flip. -/
def PixelFetcher.push_to_sprite_fifo (f : PixelFetcher) (sprite : Sprite) : PixelFetcher :=
  let x_flip := (sprite.attributes >>> 5) &&& 1
  let start := f.sprite_fifo.length
  let pixels := (List.range (8 - start)).map fun k =>
    let pixel_number := if x_flip = 1 then 7 - (start + k) else start + k
    let colour_high := ((f.sprite_tile_data_high &&& (0b10000000 >>> pixel_number)) >>> (7 - pixel_number)) <<< 1
    let colour_low := (f.sprite_tile_data_low &&& (0b10000000 >>> pixel_number)) >>> (7 - pixel_number)
    let palette := if (sprite.attributes &&& 0b00010000) >>> 4 = 0 then 0xFF48 else 0xFF49
    let priority := (sprite.attributes &&& 0b10000000) >>> 7
    SpritePixel.mk (colour_high ||| colour_low) palette priority
  { f with sprite_fifo := f.sprite_fifo ++ pixels }

/-- ppu.rs `PPU` (the SDL renderer is reduced to its display buffer). -/
structure PPU where
  mode : Nat
  cycles : Nat
  ly : Nat
  x : Nat
  mode_3_penalty : Nat
  obj_penalty : Nat
  rendering_window : Bool
  entered_window : Bool
  entered_vblank : Bool
  stat_irq : Bool
  first_irq_on_scanline : Bool
  oam_pointer : Nat
  sprite_buffer : List Sprite
  obj_checked_tiles : List Nat
  fetching_sprite : Bool
  sprite_to_render : Sprite
  displaybuffer : Nat → Nat
  displaybuffer_index : Nat
  pixel_fetcher : PixelFetcher

/-- PPU::new. -/
def PPU.new : PPU :=
  { mode := 2, cycles := 0, ly := 0, x := 0, mode_3_penalty := 0, obj_penalty := 0,
    rendering_window := false, entered_window := false, entered_vblank := false,
    stat_irq := false, first_irq_on_scanline := false, oam_pointer := 0,
    sprite_buffer := [], obj_checked_tiles := [], fetching_sprite := false,
    sprite_to_render := Sprite.mk 0 0 0 0, displaybuffer := fun _ => 0,
    displaybuffer_index := 0, pixel_fetcher := PixelFetcher.new }

/-- PPU::inc_ly. -/
def PPU.inc_ly (p : PPU) (m : Memory) : PPU × Memory :=
  let p1 := { p with ly := (p.ly + 1) % 256, first_irq_on_scanline := false }
  let ly := m.read 0xFF44
  (p1, m.write 0xFF44 ((ly + 1) % 256))

/-- PPU::rendering_window (the method sharing its name with the field):
decide whether the window is being rendered and latch window entry. -/
def PPU.rendering_window_check (p : PPU) (m : Memory) : PPU :=
  let wy := m.read 0xFF4A
  let wx := (m.read 0xFF4B + 256 - 8) % 256
  let window_enabled : Bool := ¬ (m.read 0xFF40 &&& 0b00100000 = 0)
  if wy ≤ p.ly ∧ wx ≤ p.x ∧ window_enabled = true then
    let p1 := { p with
      rendering_window := true,
      pixel_fetcher := { p.pixel_fetcher with rendering_window := true } }
    if p1.entered_window = false then
      { p1 with
        entered_window := true,
        pixel_fetcher := { p1.pixel_fetcher with
          fetcher_x := 0,
          bgwin_state := FetcherState.TileNumber, bgwin_fifo := [] } }
    else p1
  else
    { p with
      rendering_window := false,
      pixel_fetcher := { p.pixel_fetcher with rendering_window := false } }

/-- Gray level for a 2-bit palette colour (the four match arms of
push_to_lcd). -/
def grayLevel (colour : Nat) : Nat :=
  if colour = 0 then 255 else if colour = 1 then 169 else if colour = 2 then 84 else 0

/-- PPU::push_to_lcd: pop the front of the FIFOs, mix background and
sprite pixels, write three RGB bytes to the display buffer (stepping the
index by 1, 1 and 2 as the source does) and re-evaluate the window
condition.  The source unwraps the FIFO fronts; callers only invoke it
with a non-empty background FIFO, and the defaults used here stand for
the unreachable empty case. -/
def PPU.push_to_lcd (p : PPU) (m : Memory) : PPU :=
  let lcdc := m.read 0xFF40
  let mix := ¬ p.pixel_fetcher.sprite_fifo.isEmpty ∧ ¬ p.pixel_fetcher.bgwin_fifo.isEmpty
  let bg_pixel := p.pixel_fetcher.bgwin_fifo.headD (BackgroundPixel.mk 0 0xFF47)
  let bg_rest := p.pixel_fetcher.bgwin_fifo.tail
  let bg_colour := if lcdc &&& 0b00000001 = 0 then 0 else bg_pixel.colour_id
  let (rgb, f1) :=
    if mix then
      let sprite_pixel := p.pixel_fetcher.sprite_fifo.headD (SpritePixel.mk 0 0xFF48 0)
      let sp_rest := p.pixel_fetcher.sprite_fifo.tail
      let sp_colour := if lcdc &&& 0b00000010 = 0 then 0 else sprite_pixel.colour_id
      let rgb :=
        if sp_colour = 0 ∨ (sprite_pixel.priority = 1 ∧ bg_colour ≠ 0) then
          grayLevel ((m.read bg_pixel.palette &&& (0b00000011 <<< (bg_colour * 2))) >>> (bg_colour * 2))
        else
          grayLevel ((m.read sprite_pixel.palette &&& (0b00000011 <<< (sp_colour * 2))) >>> (sp_colour * 2))
      (rgb, { p.pixel_fetcher with bgwin_fifo := bg_rest, sprite_fifo := sp_rest })
    else
      let rgb :=
        grayLevel ((m.read bg_pixel.palette &&& (0b00000011 <<< (bg_colour * 2))) >>> (bg_colour * 2))
      (rgb, { p.pixel_fetcher with bgwin_fifo := bg_rest })
  let i0 := p.displaybuffer_index
  let db := Function.update (Function.update (Function.update p.displaybuffer i0 rgb)
      (i0 + 1) rgb) (i0 + 2) rgb
  let p1 := { p with pixel_fetcher := f1, displaybuffer := db, displaybuffer_index := i0 + 4 }
  p1.rendering_window_check m

/-- PPU::fetching_sprite (the method sharing its name with the field):
when some buffered sprite covers the current column, reset the background
fetcher and take sprite 0 out of the buffer for rendering. -/
def PPU.fetching_sprite_check (p : PPU) : Bool × PPU :=
  if p.sprite_buffer.any (fun sprite => sprite.x ≤ p.x + 8) then
    (true,
      { p with
        pixel_fetcher := { p.pixel_fetcher with bgwin_state := FetcherState.TileNumber },
        sprite_to_render := p.sprite_buffer.headD (Sprite.mk 0 0 0 0),
        sprite_buffer := p.sprite_buffer.tail })
  else (false, p)

/-- PPU::set_to_v_blank. -/
def PPU.set_to_v_blank (p : PPU) (m : Memory) : PPU × Memory :=
  let p1 := { p with
    mode := 1, entered_vblank := true,
    pixel_fetcher := { p.pixel_fetcher with window_line_counter := 0 } }
  let stat := m.read 0xFF41
  let p2 :=
    if stat &&& 0b00010000 ≠ 0 ∧ p1.ly ≠ m.read 0xFF45 then { p1 with stat_irq := true }
    else p1
  (p2, m.write 0xFF41 ((stat &&& (255 ^^^ 0b00000011)) ||| p2.mode))

/-- PPU::h_blank. -/
def PPU.h_blank (p : PPU) (m : Memory) : PPU × Memory :=
  let p1 :=
    if p.rendering_window then
      { p with
        rendering_window := false, sprite_buffer := [],
        pixel_fetcher := { p.pixel_fetcher with
          rendering_window := false,
          window_line_counter := (p.pixel_fetcher.window_line_counter + 1) % 256 } }
    else p
  if p1.cycles = 456 then
    let pm2 :=
      if p1.ly = 143 then p1.set_to_v_blank m
      else
        let p2 := { p1 with
          mode := 2,
          pixel_fetcher := { p1.pixel_fetcher with bgwin_fifo := [] } }
        let stat := m.read 0xFF41
        let p3 :=
          if stat &&& 0b00100000 ≠ 0 ∧ p2.ly ≠ m.read 0xFF45 then { p2 with stat_irq := true }
          else p2
        (p3, m.write 0xFF41 ((stat &&& (255 ^^^ 0b00000011)) ||| p3.mode))
    let pm3 := pm2.1.inc_ly pm2.2
    let p4 := pm3.1
    let m3 := pm3.2
    ({ p4 with
       entered_window := false, cycles := 0, x := 0, mode_3_penalty := 0,
       obj_penalty := 0, pixel_fetcher := { p4.pixel_fetcher with fetcher_x := 0 } }, m3)
  else (p1, m)

/-- PPU::v_blank (renderer.update presents the frame to the host and does
not change the modelled state). -/
def PPU.v_blank (p : PPU) (m : Memory) : PPU × Memory :=
  let pm1 :=
    if p.ly = 153 ∧ p.cycles = 456 then
      ({ p with
         mode := 2, ly := 0, cycles := 0, x := 0, displaybuffer_index := 0,
         entered_vblank := false,
         pixel_fetcher := { p.pixel_fetcher with window_line_counter := 0 } },
       m.write 0xFF44 0)
    else (p, m)
  let p1 := pm1.1
  let m1 := pm1.2
  if p1.cycles = 456 then
    let pm2 := p1.inc_ly m1
    ({ pm2.1 with cycles := 0 }, pm2.2)
  else (p1, m1)

/-- Stable insertion of a sprite into a list sorted by X (used to model
`sort_by` on the sprite buffer, which is a stable sort). -/
def spriteInsert (s : Sprite) : List Sprite → List Sprite
  | [] => [s]
  | t :: ts => if s.x ≤ t.x then s :: t :: ts else t :: spriteInsert s ts

/-- Stable sort of the sprite buffer by X ascending. -/
def spriteSort : List Sprite → List Sprite
  | [] => []
  | s :: ss => spriteInsert s (spriteSort ss)

/-- PPU::oam_scan's while loop: scan OAM entries from `oam_pointer`
upward, pushing (at most) the first visible sprite found and returning;
`fuel` bounds the remaining iterations (40 suffices since the pointer
increases every iteration). -/
def PPU.oam_scan_loop (p : PPU) (m : Memory) : Nat → PPU
  | 0 => p
  | fuel + 1 =>
    if p.oam_pointer < 40 then
      let height := if m.read 0xFF40 &&& 0x4 = 0 then 8 else 16
      let y := m.oam (p.oam_pointer * 4)
      let x := m.oam (p.oam_pointer * 4 + 1)
      if (y + height) % 256 > (p.ly + 16) % 256 ∧ y ≤ (p.ly + 16) % 256 ∧ x > 0 then
        let index := m.oam (p.oam_pointer * 4 + 2)
        let attributes := m.oam (p.oam_pointer * 4 + 3)
        let index := if height = 16 then index &&& 254 else index
        { p with
          sprite_buffer := p.sprite_buffer ++ [Sprite.mk y x index attributes],
          oam_pointer := p.oam_pointer + 1, obj_penalty := 6 }
      else
        PPU.oam_scan_loop { p with oam_pointer := p.oam_pointer + 1 } m fuel
    else p

/-- PPU::oam_scan: at dot 80 switch to mode 3 (resetting the fetcher and
sorting the sprite buffer); otherwise, unless 10 sprites are already
buffered, run the scan loop (which pushes at most one sprite per call). -/
def PPU.oam_scan (p : PPU) (m : Memory) : PPU × Memory :=
  if p.cycles = 80 then
    let p1 := { p with mode := 3 }
    let stat := m.read 0xFF41
    let m1 := m.write 0xFF41 ((stat &&& (255 ^^^ 0b00000011)) ||| p1.mode)
    ({ p1 with
        pixel_fetcher := { p1.pixel_fetcher with
          bgwin_state := FetcherState.TileNumber,
          cycles := 0, first_tile := true, bgwin_fifo := [], sprite_fifo := [] },
        oam_pointer := 0,
        sprite_buffer := spriteSort p1.sprite_buffer }, m1)
  else if p.sprite_buffer.length = 10 then (p, m)
  else (p.oam_scan_loop m 40, m)

/-- The fetcher state machine of PPU::mode_3_bgwin_fetch (the opening
`match` on `bgwin_state`); it only reads memory. -/
def PPU.bgwin_fetcher_step (p : PPU) (m : Memory) : PPU :=
  match p.pixel_fetcher.bgwin_state with
  | FetcherState.TileNumber =>
    if p.pixel_fetcher.cycles = 2 then
      { p with pixel_fetcher := { p.pixel_fetcher.fetch_tile_number m p.ly with
          bgwin_state := FetcherState.TileDataLow, cycles := 0 } }
    else p
  | FetcherState.TileDataLow =>
    if p.pixel_fetcher.cycles = 2 then
      { p with pixel_fetcher := { p.pixel_fetcher.fetch_tile_data_low m p.ly with
          bgwin_state := FetcherState.TileDataHigh, cycles := 0 } }
    else p
  | FetcherState.TileDataHigh =>
    if p.pixel_fetcher.cycles = 2 then
      { p with pixel_fetcher := { p.pixel_fetcher.fetch_tile_data_high m p.ly with
          bgwin_state := FetcherState.PushToFifo, cycles := 0 } }
    else p
  | FetcherState.PushToFifo =>
    let fs := p.pixel_fetcher.push_to_fifo
    if fs.2 then
      { p with pixel_fetcher := { fs.1 with bgwin_state := FetcherState.TileNumber, cycles := 0 } }
    else { p with pixel_fetcher := fs.1 }

/-- The pixel-emission block of PPU::mode_3_bgwin_fetch (the
`if !bgwin_fifo.is_empty()` block: fine-scroll discard at column 0, LCD
push, column advance and the sprite-fetch pre-emption check); it only
reads memory. -/
def PPU.bgwin_emit_pixel (p1 : PPU) (m : Memory) : PPU :=
  if ¬ p1.pixel_fetcher.bgwin_fifo.isEmpty then
    let p2 : PPU :=
      if p1.x = 0 then
        let scx := m.read 0xFF43
        { p1 with pixel_fetcher := { p1.pixel_fetcher with
            bgwin_fifo := p1.pixel_fetcher.bgwin_fifo.drop (scx % 8) } }
      else p1
    let p3 := p2.push_to_lcd m
    let p4 := { p3 with x := (p3.x + 1) % 256 }
    let bp := p4.fetching_sprite_check
    { bp.2 with fetching_sprite := bp.1 }
  else p1

/-- PPU::mode_3_bgwin_fetch: fetcher step, pixel emission, then the
end-of-line transition to HBlank at column 160. -/
def PPU.mode_3_bgwin_fetch (p : PPU) (m : Memory) : PPU × Memory :=
  let p2 := (p.bgwin_fetcher_step m).bgwin_emit_pixel m
  if p2.x = 160 then
    let p3 := { p2 with mode := 0, x := 0 }
    let stat := m.read 0xFF41
    let p4 :=
      if m.read 0xFF41 &&& 0b00001000 ≠ 0 ∧ p3.ly ≠ m.read 0xFF45 then
        { p3 with stat_irq := true }
      else p3
    (p4, m.write 0xFF41 ((stat &&& (255 ^^^ 0b00000011)) ||| p4.mode))
  else (p2, m)

/-- PPU::mode_3_sprite_fetch (reads memory, never writes it). -/
def PPU.mode_3_sprite_fetch (p : PPU) (m : Memory) : PPU :=
  match p.pixel_fetcher.sprite_state with
  | FetcherState.TileNumber =>
    if p.pixel_fetcher.cycles = 2 then
      { p with pixel_fetcher := { p.pixel_fetcher with
          cycles := 0,
          sprite_state := FetcherState.TileDataLow } }
    else p
  | FetcherState.TileDataLow =>
    if p.pixel_fetcher.cycles = 2 then
      { p with pixel_fetcher :=
        { p.pixel_fetcher.sprite_fetch_tile_data_low m p.ly p.sprite_to_render with
          cycles := 0, sprite_state := FetcherState.TileDataHigh } }
    else p
  | FetcherState.TileDataHigh =>
    if p.pixel_fetcher.cycles = 2 then
      { p with pixel_fetcher :=
        { p.pixel_fetcher.sprite_fetch_tile_data_high m p.ly p.sprite_to_render with
          cycles := 0, sprite_state := FetcherState.PushToFifo } }
    else p
  | FetcherState.PushToFifo =>
    { p with
      fetching_sprite := false,
      pixel_fetcher := { p.pixel_fetcher.push_to_sprite_fifo p.sprite_to_render with
        sprite_state := FetcherState.TileNumber, cycles := 0 } }

/-- The LY=LYC STAT prologue of PPU::step. -/
def PPU.step_stat_check (p : PPU) (m : Memory) : PPU × Memory :=
  let stat := m.read 0xFF41
  if stat &&& 0b01000000 ≠ 0 then
    if p.ly = m.read 0xFF45 ∧ p.first_irq_on_scanline = false then
      ({ p with stat_irq := true, first_irq_on_scanline := true },
       m.write 0xFF41 (stat ||| 0b00000100))
    else (p, m.write 0xFF41 (stat &&& (255 ^^^ 0b00000100)))
  else (p, m)

/-- PPU::step: the LY=LYC STAT check, the dot-counter advance and the
mode dispatch (the mode match has no other arm in the source; the final
case is unreachable). -/
def PPU.step (p : PPU) (m : Memory) : PPU × Memory :=
  let pm0 := p.step_stat_check m
  let m0 := pm0.2
  let p1 : PPU := { pm0.1 with
    cycles := (pm0.1.cycles + 1) % 65536,
    pixel_fetcher := { pm0.1.pixel_fetcher with
      cycles := (pm0.1.pixel_fetcher.cycles + 1) % 256 } }
  if p1.mode = 0 then p1.h_blank m0
  else if p1.mode = 1 then p1.v_blank m0
  else if p1.mode = 2 then p1.oam_scan m0
  else if p1.mode = 3 then
    if p1.fetching_sprite then (p1.mode_3_sprite_fetch m0, m0)
    else p1.mode_3_bgwin_fetch m0
  else (p1, m0)

/-- PPU::tick: four dots per machine cycle. -/
def PPU.tick (p : PPU) (m : Memory) : PPU × Memory :=
  let s1 := p.step m
  let s2 := s1.1.step s1.2
  let s3 := s2.1.step s2.2
  s3.1.step s3.2

/-! ## cpu.rs data model -/

/-- cpu.rs `Interrupt`. -/
inductive Interrupt | VBlank | STAT | Timer | Serial | Joypad
deriving DecidableEq

/-- BinaryHeap::get_interrupt_priority: fixed priority ranks, VBlank
highest. -/
def get_interrupt_priority (int : Interrupt) : Nat :=
  match int with
  | Interrupt.VBlank => 4
  | Interrupt.STAT => 3
  | Interrupt.Timer => 2
  | Interrupt.Serial => 1
  | Interrupt.Joypad => 0

/-- cpu.rs `BinaryHeap`: a Vec viewed as a binary tree. -/
structure BinaryHeap where
  nodes : List Interrupt
deriving DecidableEq

/-- BinaryHeap::is_empty. -/
def BinaryHeap.is_empty (h : BinaryHeap) : Bool := h.nodes.length = 0

/-- BinaryHeap::shift_up (the source indexes `nodes[i]`/`nodes[parent]`,
always in bounds at its call sites; `getD` supplies the unreachable
default; when the index is `0` the source returns before comparing). -/
def BinaryHeap.shift_up_go : Nat → BinaryHeap → Nat → BinaryHeap
  | 0, h, _ => h
  | _ + 1, h, 0 => h
  | fuel + 1, h, k + 1 =>
    let int := h.nodes.getD (k + 1) Interrupt.VBlank
    let pushed_priority := get_interrupt_priority int
    let parent := k / 2
    if get_interrupt_priority (h.nodes.getD parent Interrupt.VBlank) ≤ pushed_priority then
      BinaryHeap.shift_up_go fuel ⟨listSwap h.nodes parent (k + 1)⟩ parent
    else h

/-- The index strictly decreases at each recursive call, so fuel `i + 1`
never runs out and the fuel-0 row is unreachable. -/
def BinaryHeap.shift_up (h : BinaryHeap) (i : Nat) : BinaryHeap :=
  BinaryHeap.shift_up_go (i + 1) h i

/-- BinaryHeap::push. -/
def BinaryHeap.push (h : BinaryHeap) (int : Interrupt) : BinaryHeap :=
  let h1 : BinaryHeap := ⟨h.nodes ++ [int]⟩
  h1.shift_up (h1.nodes.length - 1)

/-- BinaryHeap::shift_down.  In the source the two inner `if` blocks bind
new variables `let highest_priority = ...` that shadow the outer binding
inside the block only, so the outer `highest_priority` still equals `i`
at the final comparison, the swap never fires and the recursion never
starts: the vector is returned unchanged. -/
def BinaryHeap.shift_down (h : BinaryHeap) (i _len : Nat) : BinaryHeap :=
  let highest_priority := i
  if highest_priority ≠ i then h else h

/-- BinaryHeap::pop: swap the root with the last element, run (the inert)
shift_down, then Vec::pop the last element off. -/
def BinaryHeap.pop (h : BinaryHeap) : Option Interrupt × BinaryHeap :=
  if h.nodes.isEmpty then (none, h)
  else
    let i := h.nodes.length - 1
    let h1 := BinaryHeap.shift_down ⟨listSwap h.nodes 0 i⟩ 0 i
    (h1.nodes.getLast?, ⟨h1.nodes.dropLast⟩)

/-- cpu.rs `InputStates`. -/
structure InputStates where
  down : Bool
  up : Bool
  left : Bool
  right : Bool
  start : Bool
  select : Bool
  b : Bool
  a : Bool

/-- InputStates::new. -/
def InputStates.new : InputStates :=
  { down := false, up := false, left := false, right := false,
    start := false, select := false, b := false, a := false }

/-- InputStates::get_states: active-low nibble for the selected button
group (`!states` on u8 is `255 ^^^ states`). -/
def InputStates.get_states (s : InputStates) (joyp : Nat) : Nat :=
  if joyp &&& 0b00100000 ≠ 0 ∧ joyp &&& 0b00010000 = 0 then
    let states := 0b00010000 ||| s.down.toNat <<< 3 ||| s.up.toNat <<< 2
        ||| s.left.toNat <<< 1 ||| s.right.toNat
    255 ^^^ states
  else if joyp &&& 0b00100000 = 0 ∧ joyp &&& 0b00010000 ≠ 0 then
    let states := 0b00100000 ||| s.start.toNat <<< 3 ||| s.select.toNat <<< 2
        ||| s.b.toNat <<< 1 ||| s.a.toNat
    255 ^^^ states
  else 0xFF

/-- cpu.rs `CPU`. -/
structure CPU where
  halted : Bool
  ime : Bool
  ime_waiting : Bool
  registers : Registers
  memory : Memory
  pc : Nat
  sp : Nat
  t_cycles : Nat
  timer : Timer
  ppu : PPU
  interrupt_queue : BinaryHeap
  interrupt_queue_bitflags : Nat
  input_states : InputStates

/-- CPU::new. -/
def CPU.new : CPU :=
  { halted := false, ime := false, ime_waiting := false,
    registers := Registers.new, memory := Memory.new, pc := 0x100, sp := 0xFFFE,
    t_cycles := 0, timer := Timer.new, ppu := PPU.new,
    interrupt_queue := ⟨[]⟩, interrupt_queue_bitflags := 0,
    input_states := InputStates.new }

/-- CPU::m_cycle: advance the t-cycle counter by 4, tick the PPU once
(four dots) against the shared memory, tick the timer once. -/
def CPU.m_cycle (c : CPU) : CPU :=
  let c1 := { c with t_cycles := (c.t_cycles + 4) % 65536 }
  let pm := c1.ppu.tick c1.memory
  { c1 with ppu := pm.1, memory := pm.2, timer := c1.timer.inc_sysclk }

/-- CPU::set_vblank_flag: latch the PPU's one-shot vblank signal into
interrupt-flag bit 0. -/
def CPU.set_vblank_flag (c : CPU) : CPU :=
  if c.ppu.entered_vblank then
    let c1 := { c with ppu := { c.ppu with entered_vblank := false } }
    let interrupt_flags := c1.memory.read 0xFF0F
    { c1 with memory := c1.memory.write 0xFF0F (interrupt_flags ||| 0b00000001) }
  else c

/-- CPU::set_stat_flag: latch the PPU's one-shot STAT signal into
interrupt-flag bit 1. -/
def CPU.set_stat_flag (c : CPU) : CPU :=
  if c.ppu.stat_irq then
    let c1 := { c with ppu := { c.ppu with stat_irq := false } }
    let interrupt_flags := c1.memory.read 0xFF0F
    { c1 with memory := c1.memory.write 0xFF0F (interrupt_flags ||| 0b00000010) }
  else c

/-- CPU::set_tima_flag: latch the timer's one-shot overflow signal into
interrupt-flag bit 2. -/
def CPU.set_tima_flag (c : CPU) : CPU :=
  if c.timer.tima_overflow_irq then
    let c1 := { c with timer := { c.timer with tima_overflow_irq := false } }
    let interrupt_flags := c1.memory.read 0xFF0F
    { c1 with memory := c1.memory.write 0xFF0F (interrupt_flags ||| 0b00000100) }
  else c

/-- The request-byte bit of each interrupt kind (the match repeated at
each use site in the source: 1, 2, 4, 8, 16). -/
def interrupt_bit (int : Interrupt) : Nat :=
  match int with
  | Interrupt.VBlank => 1
  | Interrupt.STAT => 2
  | Interrupt.Timer => 4
  | Interrupt.Serial => 8
  | Interrupt.Joypad => 16

/-- CPU::set_interrupt_queue_bitflag. -/
def CPU.set_interrupt_queue_bitflag (c : CPU) (int : Interrupt) : CPU :=
  { c with interrupt_queue_bitflags := c.interrupt_queue_bitflags ||| interrupt_bit int }

/-- CPU::get_interrupt_queue_bitflag. -/
def CPU.get_interrupt_queue_bitflag (c : CPU) (int : Interrupt) : Bool :=
  c.interrupt_queue_bitflags &&& interrupt_bit int ≠ 0

/-- CPU::clear_interrupt_queue_bitflag (`!mask` on u8 is `255 ^^^ mask`). -/
def CPU.clear_interrupt_queue_bitflag (c : CPU) (int : Interrupt) : CPU :=
  { c with interrupt_queue_bitflags :=
      c.interrupt_queue_bitflags &&& (255 ^^^ interrupt_bit int) }

/-- CPU::write: timer-mapped addresses go to the timer, everything else
to the address space; each write consumes one machine cycle (the 0xFF0F
println is log-only). -/
def CPU.write (c : CPU) (address data : Nat) : CPU :=
  let c1 :=
    if 0xFF04 ≤ address ∧ address ≤ 0xFF07 then
      { c with timer := c.timer.write_io address data }
    else { c with memory := c.memory.write address data }
  c1.m_cycle

/-- CPU::read: the joypad register reflects the input states, the
timer-mapped addresses read the timer, everything else reads the address
space; each read consumes one machine cycle. -/
def CPU.read (c : CPU) (address : Nat) : Nat × CPU :=
  let data :=
    if address = 0xFF00 then c.input_states.get_states (c.memory.read 0xFF00)
    else if 0xFF04 ≤ address ∧ address ≤ 0xFF07 then c.timer.read_io address
    else c.memory.read address
  (data, c.m_cycle)

/-- CPU::stack_push: decrement SP (wrapping), write the high byte
(`(num >> 8) as u8`), decrement again, write the low byte (`num & 0xFF`). -/
def CPU.stack_push (c : CPU) (num : Nat) : CPU :=
  let c1 := { c with sp := (c.sp + 65535) % 65536 }
  let c2 := c1.write c1.sp (num / 256 % 256)
  let c3 := { c2 with sp := (c2.sp + 65535) % 65536 }
  c3.write c3.sp (num % 256)

/-- CPU::stack_pop: read the low byte at SP, increment, read the high
byte, increment; result is `(upper << 8) | lower` (disjoint bytes, so
`|` is `+`). -/
def CPU.stack_pop (c : CPU) : Nat × CPU :=
  let r1 := c.read c.sp
  let lower := r1.1
  let c2 := r1.2.m_cycle
  let c3 := { c2 with sp := (c2.sp + 1) % 65536 }
  let r2 := c3.read c3.sp
  let upper := r2.1
  let c5 := r2.2.m_cycle
  let c6 := { c5 with sp := (c5.sp + 1) % 65536 }
  (upper * 256 + lower, c6)

/-- The fixed dispatch vector of each interrupt kind. -/
def interrupt_vector (int : Interrupt) : Nat :=
  match int with
  | Interrupt.VBlank => 0x40
  | Interrupt.STAT => 0x48
  | Interrupt.Timer => 0x50
  | Interrupt.Serial => 0x58
  | Interrupt.Joypad => 0x60

/-- CPU::handle_interrupt: two wait machine cycles, push PC, clear the
master enable, jump to the kind's vector and clear its queued bit. -/
def CPU.handle_interrupt (c : CPU) (int : Interrupt) : CPU :=
  let c1 := c.m_cycle.m_cycle
  let c2 := c1.stack_push c1.pc
  let c3 := { c2 with ime := false, pc := interrupt_vector int }
  c3.clear_interrupt_queue_bitflag int

/-- The enqueue phase of CPU::interrupt_poll: for each of the five kinds
in priority-bit order (`for flag in 0..5`, `flag_and = 1 << flag`), queue
it when its request bit in the snapshot is set and it is not already
queued, and clear the halt state. -/
def pollEnqueue (c : CPU) (interrupt_flags : Nat) : CPU :=
  [Interrupt.VBlank, Interrupt.STAT, Interrupt.Timer, Interrupt.Serial,
    Interrupt.Joypad].foldl
    (fun c interrupt =>
      if c.get_interrupt_queue_bitflag interrupt = false
          ∧ interrupt_bit interrupt &&& interrupt_flags ≠ 0 then
        let c1 := { c with interrupt_queue := c.interrupt_queue.push interrupt }
        let c2 := c1.set_interrupt_queue_bitflag interrupt
        { c2 with halted := false }
      else c)
    c

/-- The drain phase of CPU::interrupt_poll: pop `n` interrupts (the
queue length captured before the loop); dispatch each one if the master
enable and its individual enable bit allow, clearing its request bit in
the snapshot, else push it onto the ephemeral buffer (returned in
iteration order).  The source unwraps each pop; the buffer only grows
when a pop succeeded, so the `none` case is unreachable and stops the
loop here. -/
def pollDrain (c : CPU) (interrupt_enable interrupt_flags : Nat) :
    Nat → CPU × List Interrupt
  | 0 => (c, [])
  | n + 1 =>
    let pq := c.interrupt_queue.pop
    let c1 := { c with interrupt_queue := pq.2 }
    match pq.1 with
    | none => (c1, [])
    | some interrupt =>
      let flag := interrupt_bit interrupt
      if c1.ime ∧ flag &&& interrupt_enable ≠ 0 then
        let c2 := c1.handle_interrupt interrupt
        let c3 := { c2 with
          memory := c2.memory.write 0xFF0F (interrupt_flags &&& (255 ^^^ flag)) }
        pollDrain c3 interrupt_enable interrupt_flags n
      else
        let cb := pollDrain c1 interrupt_enable interrupt_flags n
        (cb.1, interrupt :: cb.2)

/-- CPU::interrupt_poll: synchronize the three hardware one-shot signals
into the request byte, enqueue newly requested kinds, then drain the
queue, re-queueing every interrupt that could not be dispatched. -/
def CPU.interrupt_poll (c : CPU) : CPU :=
  let c1 := c.set_vblank_flag
  let c2 := c1.set_tima_flag
  let c3 := c2.set_stat_flag
  let interrupt_enable := c3.memory.read 0xFFFF
  let interrupt_flags := c3.memory.read 0xFF0F
  let c4 := pollEnqueue c3 interrupt_flags
  if c4.interrupt_queue.nodes.length ≠ 0 then
    let cb := pollDrain c4 interrupt_enable interrupt_flags
        c4.interrupt_queue.nodes.length
    cb.2.foldl (fun c i => { c with interrupt_queue := c.interrupt_queue.push i }) cb.1
  else c4

/-- CPU::regW_pop_sp (POP rr). -/
def CPU.regW_pop_sp (c : CPU) (dst : RegW) : CPU :=
  let r := c.stack_pop
  { r.2 with registers := r.2.registers.set_regW dst r.1 }

/-- CPU::regW_push_sp (PUSH rr). -/
def CPU.regW_push_sp (c : CPU) (src : RegW) : CPU :=
  c.stack_push (c.registers.get_regW src)

/-- CPU::reg_add_reg (ADD r, r): 8-bit add with wrapping and the four
flag updates. -/
def CPU.reg_add_reg (c : CPU) (dst src : Reg) : CPU :=
  let src_v := c.registers.get_reg src
  let add := c.registers.get_reg dst
  let sum := (add + src_v) % 256
  let r1 := (c.registers.set_reg dst sum).set_flag Flag.Z (sum == 0)
  let r2 := (r1.set_flag Flag.N false).set_flag Flag.H (eval_h_add8 src_v add)
  { c with registers := r2.set_flag Flag.C (eval_c_add8 src_v add) }

/-- C1 scenario state: master enable on, VBlank and Timer requested
(IF = 0b101 at 0xFF0F) and both enabled (IE = 0b101 at 0xFFFF). -/
def c1_scenario : CPU :=
  { CPU.new with
      ime := true,
      memory := (Memory.new.write 0xFF0F 0b101).write 0xFFFF 0b101 }

/-- C2 scenario state: SP points into work RAM at a stack image whose
low byte (the one POP AF loads into F) has a dirty low nibble 0xF. -/
def c2_scenario : CPU :=
  { CPU.new with
      sp := 0xC100,
      memory := (Memory.new.write 0xC100 0x0F).write 0xC101 0x12 }

/-! ## Claim C7: DMA transfer -/

/-- Equality of two memories on every region except OAM. -/
def EqButOam (m m2 : Memory) : Prop :=
  m2.rom_bank_0 = m.rom_bank_0 ∧ m2.rom_bank_n = m.rom_bank_n ∧ m2.vram = m.vram
  ∧ m2.ext_ram = m.ext_ram ∧ m2.ram_bank_0 = m.ram_bank_0 ∧ m2.ram_bank_1 = m.ram_bank_1
  ∧ m2.mirror = m.mirror ∧ m2.io_registers = m.io_registers ∧ m2.hram = m.hram
  ∧ m2.ie_register = m.ie_register ∧ m2.serial_out = m.serial_out

/-! ## Claim C8: serial diversion -/

/-- Concrete memory whose serial-control register has the transfer-enable
bit (bit 7) set but does not read exactly 0x81. -/
def serial_mem_enable : Memory :=
  { Memory.new with io_registers := Function.update (fun _ => 0) 2 0x80 }

/-- Concrete memory whose serial-control register reads exactly 0x81. -/
def serial_mem_81 : Memory :=
  { Memory.new with io_registers := Function.update (fun _ => 0) 2 0x81 }

/-- Concrete timer state sitting in the delayed-overflow (delay) cycle:
TIMA has just wrapped to 0 and the interrupt countdown is armed. -/
def delay_timer : Timer :=
  { sysclk := 0, tima := 0, tma := 0, tac := 0, last_bit := 0,
    tima_reload_cycle := false, tima_cycles_to_irq := 1,
    tima_overflow_irq := false }

/-- Concrete timer state sitting in the reload cycle: TIMA was just
reloaded from TMA on this machine cycle. -/
def reload_timer : Timer :=
  { delay_timer with tima_reload_cycle := true, tima_cycles_to_irq := 0 }

/-! ## Shared-memory preservation toolkit (for claims C1 and C3) -/

/-- Plain RAM cells: the RAM-backed regions of the address space (VRAM,
external RAM, the two work-RAM banks, echo RAM, OAM and high RAM), the
cells with no read or write side effects. -/
def plainRAM (a : Nat) : Prop :=
  (0x8000 ≤ a ∧ a ≤ 0xFE9F) ∨ (0xFF80 ≤ a ∧ a ≤ 0xFFFE)

/-- Equality of two memories on every region except the I/O block (the
only part of the address space the PPU tick writes). -/
def MemSame (m m2 : Memory) : Prop :=
  m2.rom_bank_0 = m.rom_bank_0 ∧ m2.rom_bank_n = m.rom_bank_n ∧ m2.vram = m.vram
  ∧ m2.ext_ram = m.ext_ram ∧ m2.ram_bank_0 = m.ram_bank_0 ∧ m2.ram_bank_1 = m.ram_bank_1
  ∧ m2.mirror = m.mirror ∧ m2.oam = m.oam ∧ m2.hram = m.hram
  ∧ m2.ie_register = m.ie_register ∧ m2.serial_out = m.serial_out

/-- One leg of stack_push: decrement SP (wrapping) and write one byte
there. `stack_push` is definitionally two of these legs. -/
def CPU.push_byte (c : CPU) (b : Nat) : CPU :=
  let c1 : CPU := { c with sp := (c.sp + 65535) % 65536 }
  c1.write c1.sp b

/-! ## Memory totality and characterization lemmas -/

/-- The else branch of an `ite` under a refuted condition (an alias of
`if_neg` used in the long region-dispatch rewrite chains below). -/
theorem neg_branch {c : Prop} [Decidable c] {α : Sort u} {x y : α}
    (h : ¬ c) : (if c then x else y) = y :=
  if_neg h

/-- Characterization of Memory::read on the fixed ROM bank. -/
theorem Memory.read_chk_rom0 (m : Memory) (a : Nat) (h2 : a ≤ 0x3FFF) :
    m.read_chk a = some (m.rom_bank_0 a) := by
  unfold Memory.read_chk idx_chk KIB
  rw [if_pos h2, if_pos (by omega)]

/-- Characterization of Memory::read on the switchable ROM bank. -/
theorem Memory.read_chk_romn (m : Memory) (a : Nat) (h1 : 0x4000 ≤ a) (h2 : a ≤ 0x7FFF) :
    m.read_chk a = some (m.rom_bank_n (a - 0x4000)) := by
  unfold Memory.read_chk idx_chk KIB
  rw [neg_branch (by omega), if_pos (by omega), if_pos (by omega)]

/-- Characterization of Memory::read on VRAM. -/
theorem Memory.read_chk_vram (m : Memory) (a : Nat) (h1 : 0x8000 ≤ a) (h2 : a ≤ 0x9FFF) :
    m.read_chk a = some (m.vram (a - 0x8000)) := by
  unfold Memory.read_chk idx_chk KIB
  rw [neg_branch (by omega), neg_branch (by omega), if_pos (by omega), if_pos (by omega)]

/-- Characterization of Memory::read on external RAM. -/
theorem Memory.read_chk_ext (m : Memory) (a : Nat) (h1 : 0xA000 ≤ a) (h2 : a ≤ 0xBFFF) :
    m.read_chk a = some (m.ext_ram (a - 0xA000)) := by
  unfold Memory.read_chk idx_chk KIB
  rw [neg_branch (by omega), neg_branch (by omega), neg_branch (by omega), if_pos (by omega),
      if_pos (by omega)]

/-- Characterization of Memory::read on work RAM bank 0. -/
theorem Memory.read_chk_ram0 (m : Memory) (a : Nat) (h1 : 0xC000 ≤ a) (h2 : a ≤ 0xCFFF) :
    m.read_chk a = some (m.ram_bank_0 (a - 0xC000)) := by
  unfold Memory.read_chk idx_chk KIB
  rw [neg_branch (by omega), neg_branch (by omega), neg_branch (by omega), neg_branch (by omega),
      if_pos (by omega), if_pos (by omega)]

/-- Characterization of Memory::read on work RAM bank 1. -/
theorem Memory.read_chk_ram1 (m : Memory) (a : Nat) (h1 : 0xD000 ≤ a) (h2 : a ≤ 0xDFFF) :
    m.read_chk a = some (m.ram_bank_1 (a - 0xD000)) := by
  unfold Memory.read_chk idx_chk KIB
  rw [neg_branch (by omega), neg_branch (by omega), neg_branch (by omega), neg_branch (by omega),
      neg_branch (by omega), if_pos (by omega), if_pos (by omega)]

/-- Characterization of Memory::read on echo RAM. -/
theorem Memory.read_chk_mirror (m : Memory) (a : Nat) (h1 : 0xE000 ≤ a) (h2 : a ≤ 0xFDFF) :
    m.read_chk a = some (m.mirror (a - 0xE000)) := by
  unfold Memory.read_chk idx_chk KIB
  rw [neg_branch (by omega), neg_branch (by omega), neg_branch (by omega), neg_branch (by omega),
      neg_branch (by omega), neg_branch (by omega), if_pos (by omega), if_pos (by omega)]

/-- Characterization of Memory::read on OAM. -/
theorem Memory.read_chk_oam (m : Memory) (a : Nat) (h1 : 0xFE00 ≤ a) (h2 : a ≤ 0xFE9F) :
    m.read_chk a = some (m.oam (a - 0xFE00)) := by
  unfold Memory.read_chk idx_chk KIB
  rw [neg_branch (by omega), neg_branch (by omega), neg_branch (by omega), neg_branch (by omega),
      neg_branch (by omega), neg_branch (by omega), neg_branch (by omega), if_pos (by omega),
      if_pos (by omega)]

/-- Characterization of Memory::read on the I/O register block. -/
theorem Memory.read_chk_io (m : Memory) (a : Nat) (h1 : 0xFF00 ≤ a) (h2 : a ≤ 0xFF7F) :
    m.read_chk a = some (m.io_registers (a - 0xFF00)) := by
  unfold Memory.read_chk idx_chk KIB
  rw [neg_branch (by omega), neg_branch (by omega), neg_branch (by omega), neg_branch (by omega),
      neg_branch (by omega), neg_branch (by omega), neg_branch (by omega), neg_branch (by omega),
      if_pos (by omega), if_pos (by omega)]

/-- Characterization of Memory::read on high RAM. -/
theorem Memory.read_chk_hram (m : Memory) (a : Nat) (h1 : 0xFF80 ≤ a) (h2 : a ≤ 0xFFFE) :
    m.read_chk a = some (m.hram (a - 0xFF80)) := by
  unfold Memory.read_chk idx_chk KIB
  rw [neg_branch (by omega), neg_branch (by omega), neg_branch (by omega), neg_branch (by omega),
      neg_branch (by omega), neg_branch (by omega), neg_branch (by omega), neg_branch (by omega),
      neg_branch (by omega), if_pos (by omega), if_pos (by omega)]

/-- Characterization of Memory::read on the interrupt-enable byte. -/
theorem Memory.read_chk_ie (m : Memory) (a : Nat) (h : a = 0xFFFF) :
    m.read_chk a = some m.ie_register := by
  unfold Memory.read_chk idx_chk KIB
  rw [neg_branch (by omega), neg_branch (by omega), neg_branch (by omega), neg_branch (by omega),
      neg_branch (by omega), neg_branch (by omega), neg_branch (by omega), neg_branch (by omega),
      neg_branch (by omega), neg_branch (by omega), if_pos h]

/-- Characterization of Memory::read on the unusable gap (and past the
u16 range, which is unreachable from the source): the wildcard arm logs
and returns 0. -/
theorem Memory.read_chk_default (m : Memory) (a : Nat)
    (h : (0xFEA0 ≤ a ∧ a ≤ 0xFEFF) ∨ 0x10000 ≤ a) :
    m.read_chk a = some 0 := by
  unfold Memory.read_chk idx_chk KIB
  rw [neg_branch (by omega), neg_branch (by omega), neg_branch (by omega), neg_branch (by omega),
      neg_branch (by omega), neg_branch (by omega), neg_branch (by omega), neg_branch (by omega),
      neg_branch (by omega), neg_branch (by omega), neg_branch (by omega)]

/-- Memory::read never panics: every address resolves to a byte. -/
theorem Memory.read_chk_total (m : Memory) (address : Nat) :
    ∃ b, m.read_chk address = some b := by
  by_cases h1 : address ≤ 0x3FFF
  · exact ⟨_, m.read_chk_rom0 address h1⟩
  by_cases h2 : address ≤ 0x7FFF
  · exact ⟨_, m.read_chk_romn address (by omega) h2⟩
  by_cases h3 : address ≤ 0x9FFF
  · exact ⟨_, m.read_chk_vram address (by omega) h3⟩
  by_cases h4 : address ≤ 0xBFFF
  · exact ⟨_, m.read_chk_ext address (by omega) h4⟩
  by_cases h5 : address ≤ 0xCFFF
  · exact ⟨_, m.read_chk_ram0 address (by omega) h5⟩
  by_cases h6 : address ≤ 0xDFFF
  · exact ⟨_, m.read_chk_ram1 address (by omega) h6⟩
  by_cases h7 : address ≤ 0xFDFF
  · exact ⟨_, m.read_chk_mirror address (by omega) h7⟩
  by_cases h8 : address ≤ 0xFE9F
  · exact ⟨_, m.read_chk_oam address (by omega) h8⟩
  by_cases h9 : address ≤ 0xFEFF
  · exact ⟨_, m.read_chk_default address (Or.inl ⟨by omega, h9⟩)⟩
  by_cases h10 : address ≤ 0xFF7F
  · exact ⟨_, m.read_chk_io address (by omega) h10⟩
  by_cases h11 : address ≤ 0xFFFE
  · exact ⟨_, m.read_chk_hram address (by omega) h11⟩
  by_cases h12 : address = 0xFFFF
  · exact ⟨_, m.read_chk_ie address h12⟩
  exact ⟨_, m.read_chk_default address (Or.inr (by omega))⟩

/-- Memory::read and its checked version agree. -/
theorem Memory.read_chk_eq (m : Memory) (address : Nat) :
    m.read_chk address = some (m.read address) := by
  obtain ⟨b, hb⟩ := m.read_chk_total address
  simp [Memory.read, hb]

/-- Memory::dma_transfer's loop never panics. -/
theorem Memory.dma_loop_total (m : Memory) (base : Nat) :
    ∀ n, ∃ m2, m.dma_loop base n = some m2 := by
  intro n
  induction n with
  | zero => exact ⟨m, rfl⟩
  | succ k ih =>
    obtain ⟨m1, h1⟩ := ih
    obtain ⟨b, hb⟩ := m1.read_chk_total (base + k)
    exact ⟨{ m1 with oam := Function.update m1.oam k b },
      by simp only [Memory.dma_loop, h1, hb, Option.some_bind, Option.map_some']⟩

/-- Checked array writes inside the array bound succeed. -/
theorem upd_chk_pos (r : Nat → Nat) (size i v : Nat) (h : i < size) :
    upd_chk r size i v = some (Function.update r i v) := by
  unfold upd_chk
  rw [if_pos h]

/-- Characterization of Memory::write on VRAM. -/
theorem Memory.write_chk_vram (m : Memory) (a d : Nat) (h1 : 0x8000 ≤ a) (h2 : a ≤ 0x9FFF) :
    m.write_chk a d
      = some { m with vram := Function.update m.vram (a - 0x8000) d } := by
  unfold Memory.write_chk KIB
  rw [if_pos (by omega), upd_chk_pos _ _ _ _ (by omega), Option.map_some']

/-- Characterization of Memory::write on external RAM. -/
theorem Memory.write_chk_ext (m : Memory) (a d : Nat) (h1 : 0xA000 ≤ a) (h2 : a ≤ 0xBFFF) :
    m.write_chk a d
      = some { m with ext_ram := Function.update m.ext_ram (a - 0xA000) d } := by
  unfold Memory.write_chk KIB
  rw [neg_branch (by omega), if_pos (by omega), upd_chk_pos _ _ _ _ (by omega), Option.map_some']

/-- Characterization of Memory::write on work RAM bank 0. -/
theorem Memory.write_chk_ram0 (m : Memory) (a d : Nat) (h1 : 0xC000 ≤ a) (h2 : a ≤ 0xCFFF) :
    m.write_chk a d
      = some { m with ram_bank_0 := Function.update m.ram_bank_0 (a - 0xC000) d } := by
  unfold Memory.write_chk KIB
  rw [neg_branch (by omega), neg_branch (by omega), if_pos (by omega),
      upd_chk_pos _ _ _ _ (by omega), Option.map_some']

/-- Characterization of Memory::write on work RAM bank 1. -/
theorem Memory.write_chk_ram1 (m : Memory) (a d : Nat) (h1 : 0xD000 ≤ a) (h2 : a ≤ 0xDFFF) :
    m.write_chk a d
      = some { m with ram_bank_1 := Function.update m.ram_bank_1 (a - 0xD000) d } := by
  unfold Memory.write_chk KIB
  rw [neg_branch (by omega), neg_branch (by omega), neg_branch (by omega), if_pos (by omega),
      upd_chk_pos _ _ _ _ (by omega), Option.map_some']

/-- Characterization of Memory::write on echo RAM. -/
theorem Memory.write_chk_mirror (m : Memory) (a d : Nat) (h1 : 0xE000 ≤ a) (h2 : a ≤ 0xFDFF) :
    m.write_chk a d
      = some { m with mirror := Function.update m.mirror (a - 0xE000) d } := by
  unfold Memory.write_chk KIB
  rw [neg_branch (by omega), neg_branch (by omega), neg_branch (by omega), neg_branch (by omega),
      if_pos (by omega), upd_chk_pos _ _ _ _ (by omega), Option.map_some']

/-- Characterization of Memory::write on OAM. -/
theorem Memory.write_chk_oam (m : Memory) (a d : Nat) (h1 : 0xFE00 ≤ a) (h2 : a ≤ 0xFE9F) :
    m.write_chk a d
      = some { m with oam := Function.update m.oam (a - 0xFE00) d } := by
  unfold Memory.write_chk KIB
  rw [neg_branch (by omega), neg_branch (by omega), neg_branch (by omega), neg_branch (by omega),
      neg_branch (by omega), if_pos (by omega), upd_chk_pos _ _ _ _ (by omega), Option.map_some']

/-- Characterization of Memory::write on the serial-data register when the
serial-control byte is exactly 0x81: the byte goes to the diagnostic sink
and no region changes. -/
theorem Memory.write_chk_ff01_divert (m : Memory) (d : Nat)
    (hc : m.io_registers 2 = 0x81) :
    m.write_chk 0xFF01 d = some { m with serial_out := m.serial_out ++ [d] } := by
  have h02 : m.read_chk 0xFF02 = some (m.io_registers 2) := by
    have h := m.read_chk_io 0xFF02 (by omega) (by omega)
    norm_num at h
    exact h
  unfold Memory.write_chk
  rw [neg_branch (by omega), neg_branch (by omega), neg_branch (by omega), neg_branch (by omega),
      neg_branch (by omega), neg_branch (by omega), if_pos (by omega), h02, Option.some_bind,
      if_pos hc]

/-- Characterization of Memory::write on the serial-data register when the
serial-control byte is not exactly 0x81: the byte is stored like a plain
I/O cell. -/
theorem Memory.write_chk_ff01_store (m : Memory) (d : Nat)
    (hc : m.io_registers 2 ≠ 0x81) :
    m.write_chk 0xFF01 d
      = some { m with io_registers := Function.update m.io_registers 1 d } := by
  have h02 : m.read_chk 0xFF02 = some (m.io_registers 2) := by
    have h := m.read_chk_io 0xFF02 (by omega) (by omega)
    norm_num at h
    exact h
  unfold Memory.write_chk
  rw [neg_branch (by omega), neg_branch (by omega), neg_branch (by omega), neg_branch (by omega),
      neg_branch (by omega), neg_branch (by omega), if_pos (by omega), h02, Option.some_bind,
      if_neg hc, upd_chk_pos _ _ _ _ (by omega), Option.map_some']

/-- Characterization of Memory::write on the DMA trigger register. -/
theorem Memory.write_chk_ff46 (m : Memory) (d : Nat) :
    m.write_chk 0xFF46 d = m.dma_transfer d := by
  unfold Memory.write_chk
  rw [neg_branch (by omega), neg_branch (by omega), neg_branch (by omega), neg_branch (by omega),
      neg_branch (by omega), neg_branch (by omega), neg_branch (by omega), if_pos (by omega)]

/-- Characterization of Memory::write on the remaining I/O registers. -/
theorem Memory.write_chk_io (m : Memory) (a d : Nat) (h1 : 0xFF00 ≤ a) (h2 : a ≤ 0xFF7F)
    (h3 : a ≠ 0xFF01) (h4 : a ≠ 0xFF46) :
    m.write_chk a d
      = some { m with io_registers := Function.update m.io_registers (a - 0xFF00) d } := by
  unfold Memory.write_chk
  rw [neg_branch (by omega), neg_branch (by omega), neg_branch (by omega), neg_branch (by omega),
      neg_branch (by omega), neg_branch (by omega), neg_branch (by omega), neg_branch (by omega),
      if_pos (by omega), upd_chk_pos _ _ _ _ (by omega), Option.map_some']

/-- Characterization of Memory::write on high RAM. -/
theorem Memory.write_chk_hram (m : Memory) (a d : Nat) (h1 : 0xFF80 ≤ a) (h2 : a ≤ 0xFFFE) :
    m.write_chk a d
      = some { m with hram := Function.update m.hram (a - 0xFF80) d } := by
  unfold Memory.write_chk
  rw [neg_branch (by omega), neg_branch (by omega), neg_branch (by omega), neg_branch (by omega),
      neg_branch (by omega), neg_branch (by omega), neg_branch (by omega), neg_branch (by omega),
      neg_branch (by omega), if_pos (by omega), upd_chk_pos _ _ _ _ (by omega), Option.map_some']

/-- Characterization of Memory::write on the interrupt-enable byte. -/
theorem Memory.write_chk_ie (m : Memory) (a d : Nat) (h : a = 0xFFFF) :
    m.write_chk a d = some { m with ie_register := d } := by
  unfold Memory.write_chk
  rw [neg_branch (by omega), neg_branch (by omega), neg_branch (by omega), neg_branch (by omega),
      neg_branch (by omega), neg_branch (by omega), neg_branch (by omega), neg_branch (by omega),
      neg_branch (by omega), neg_branch (by omega), if_pos h]

/-- Characterization of Memory::write where no write target is defined
(the ROM range, the unusable gap, and past the u16 range): the wildcard
arm only logs, leaving the state unchanged. -/
theorem Memory.write_chk_default (m : Memory) (a d : Nat)
    (h : a ≤ 0x7FFF ∨ (0xFEA0 ≤ a ∧ a ≤ 0xFEFF) ∨ 0x10000 ≤ a) :
    m.write_chk a d = some m := by
  unfold Memory.write_chk
  rw [neg_branch (by omega), neg_branch (by omega), neg_branch (by omega), neg_branch (by omega),
      neg_branch (by omega), neg_branch (by omega), neg_branch (by omega), neg_branch (by omega),
      neg_branch (by omega), neg_branch (by omega), neg_branch (by omega)]

/-- Memory::write never panics. -/
theorem Memory.write_chk_total (m : Memory) (address data : Nat) :
    ∃ m2, m.write_chk address data = some m2 := by
  by_cases h1 : address ≤ 0x7FFF
  · exact ⟨_, m.write_chk_default address data (Or.inl h1)⟩
  by_cases h2 : address ≤ 0x9FFF
  · exact ⟨_, m.write_chk_vram address data (by omega) h2⟩
  by_cases h3 : address ≤ 0xBFFF
  · exact ⟨_, m.write_chk_ext address data (by omega) h3⟩
  by_cases h4 : address ≤ 0xCFFF
  · exact ⟨_, m.write_chk_ram0 address data (by omega) h4⟩
  by_cases h5 : address ≤ 0xDFFF
  · exact ⟨_, m.write_chk_ram1 address data (by omega) h5⟩
  by_cases h6 : address ≤ 0xFDFF
  · exact ⟨_, m.write_chk_mirror address data (by omega) h6⟩
  by_cases h7 : address ≤ 0xFE9F
  · exact ⟨_, m.write_chk_oam address data (by omega) h7⟩
  by_cases h8 : address ≤ 0xFEFF
  · exact ⟨_, m.write_chk_default address data (Or.inr (Or.inl ⟨by omega, h8⟩))⟩
  by_cases h9 : address = 0xFF01
  · subst h9
    by_cases hc : m.io_registers 2 = 0x81
    · exact ⟨_, m.write_chk_ff01_divert data hc⟩
    · exact ⟨_, m.write_chk_ff01_store data hc⟩
  by_cases h10 : address = 0xFF46
  · subst h10
    obtain ⟨m2, hm2⟩ : ∃ m2, m.dma_transfer data = some m2 := by
      unfold Memory.dma_transfer
      exact m.dma_loop_total (dma_src data) 160
    exact ⟨m2, by rw [m.write_chk_ff46 data]; exact hm2⟩
  by_cases h11 : address ≤ 0xFF7F
  · exact ⟨_, m.write_chk_io address data (by omega) h11 h9 h10⟩
  by_cases h12 : address ≤ 0xFFFE
  · exact ⟨_, m.write_chk_hram address data (by omega) h12⟩
  by_cases h13 : address = 0xFFFF
  · exact ⟨_, m.write_chk_ie address data h13⟩
  exact ⟨_, m.write_chk_default address data (Or.inr (Or.inr (by omega)))⟩

/-- Total-level read characterization on VRAM. -/
theorem Memory.read_eq_vram (m : Memory) (a : Nat) (h1 : 0x8000 ≤ a) (h2 : a ≤ 0x9FFF) :
    m.read a = m.vram (a - 0x8000) := by
  unfold Memory.read
  rw [m.read_chk_vram a h1 h2]
  rfl

/-- Total-level read characterization on external RAM. -/
theorem Memory.read_eq_ext (m : Memory) (a : Nat) (h1 : 0xA000 ≤ a) (h2 : a ≤ 0xBFFF) :
    m.read a = m.ext_ram (a - 0xA000) := by
  unfold Memory.read
  rw [m.read_chk_ext a h1 h2]
  rfl

/-- Total-level read characterization on work RAM bank 0. -/
theorem Memory.read_eq_ram0 (m : Memory) (a : Nat) (h1 : 0xC000 ≤ a) (h2 : a ≤ 0xCFFF) :
    m.read a = m.ram_bank_0 (a - 0xC000) := by
  unfold Memory.read
  rw [m.read_chk_ram0 a h1 h2]
  rfl

/-- Total-level read characterization on work RAM bank 1. -/
theorem Memory.read_eq_ram1 (m : Memory) (a : Nat) (h1 : 0xD000 ≤ a) (h2 : a ≤ 0xDFFF) :
    m.read a = m.ram_bank_1 (a - 0xD000) := by
  unfold Memory.read
  rw [m.read_chk_ram1 a h1 h2]
  rfl

/-- Total-level read characterization on echo RAM. -/
theorem Memory.read_eq_mirror (m : Memory) (a : Nat) (h1 : 0xE000 ≤ a) (h2 : a ≤ 0xFDFF) :
    m.read a = m.mirror (a - 0xE000) := by
  unfold Memory.read
  rw [m.read_chk_mirror a h1 h2]
  rfl

/-- Total-level read characterization on OAM. -/
theorem Memory.read_eq_oam (m : Memory) (a : Nat) (h1 : 0xFE00 ≤ a) (h2 : a ≤ 0xFE9F) :
    m.read a = m.oam (a - 0xFE00) := by
  unfold Memory.read
  rw [m.read_chk_oam a h1 h2]
  rfl

/-- Total-level read characterization on the I/O block. -/
theorem Memory.read_eq_io (m : Memory) (a : Nat) (h1 : 0xFF00 ≤ a) (h2 : a ≤ 0xFF7F) :
    m.read a = m.io_registers (a - 0xFF00) := by
  unfold Memory.read
  rw [m.read_chk_io a h1 h2]
  rfl

/-- Total-level read characterization on high RAM. -/
theorem Memory.read_eq_hram (m : Memory) (a : Nat) (h1 : 0xFF80 ≤ a) (h2 : a ≤ 0xFFFE) :
    m.read a = m.hram (a - 0xFF80) := by
  unfold Memory.read
  rw [m.read_chk_hram a h1 h2]
  rfl

/-- Total-level read characterization on the interrupt-enable byte. -/
theorem Memory.read_eq_ie (m : Memory) (a : Nat) (h : a = 0xFFFF) :
    m.read a = m.ie_register := by
  unfold Memory.read
  rw [m.read_chk_ie a h]
  rfl

/-- Total-level write characterization on VRAM. -/
theorem Memory.write_eq_vram (m : Memory) (a d : Nat) (h1 : 0x8000 ≤ a) (h2 : a ≤ 0x9FFF) :
    m.write a d = { m with vram := Function.update m.vram (a - 0x8000) d } := by
  unfold Memory.write
  rw [m.write_chk_vram a d h1 h2]
  rfl

/-- Total-level write characterization on external RAM. -/
theorem Memory.write_eq_ext (m : Memory) (a d : Nat) (h1 : 0xA000 ≤ a) (h2 : a ≤ 0xBFFF) :
    m.write a d = { m with ext_ram := Function.update m.ext_ram (a - 0xA000) d } := by
  unfold Memory.write
  rw [m.write_chk_ext a d h1 h2]
  rfl

/-- Total-level write characterization on work RAM bank 0. -/
theorem Memory.write_eq_ram0 (m : Memory) (a d : Nat) (h1 : 0xC000 ≤ a) (h2 : a ≤ 0xCFFF) :
    m.write a d = { m with ram_bank_0 := Function.update m.ram_bank_0 (a - 0xC000) d } := by
  unfold Memory.write
  rw [m.write_chk_ram0 a d h1 h2]
  rfl

/-- Total-level write characterization on work RAM bank 1. -/
theorem Memory.write_eq_ram1 (m : Memory) (a d : Nat) (h1 : 0xD000 ≤ a) (h2 : a ≤ 0xDFFF) :
    m.write a d = { m with ram_bank_1 := Function.update m.ram_bank_1 (a - 0xD000) d } := by
  unfold Memory.write
  rw [m.write_chk_ram1 a d h1 h2]
  rfl

/-- Total-level write characterization on echo RAM. -/
theorem Memory.write_eq_mirror (m : Memory) (a d : Nat) (h1 : 0xE000 ≤ a) (h2 : a ≤ 0xFDFF) :
    m.write a d = { m with mirror := Function.update m.mirror (a - 0xE000) d } := by
  unfold Memory.write
  rw [m.write_chk_mirror a d h1 h2]
  rfl

/-- Total-level write characterization on OAM. -/
theorem Memory.write_eq_oam (m : Memory) (a d : Nat) (h1 : 0xFE00 ≤ a) (h2 : a ≤ 0xFE9F) :
    m.write a d = { m with oam := Function.update m.oam (a - 0xFE00) d } := by
  unfold Memory.write
  rw [m.write_chk_oam a d h1 h2]
  rfl

/-- Total-level write characterization on the I/O block away from the
serial-data and DMA special cases. -/
theorem Memory.write_eq_io (m : Memory) (a d : Nat) (h1 : 0xFF00 ≤ a) (h2 : a ≤ 0xFF7F)
    (h3 : a ≠ 0xFF01) (h4 : a ≠ 0xFF46) :
    m.write a d = { m with io_registers := Function.update m.io_registers (a - 0xFF00) d } := by
  unfold Memory.write
  rw [m.write_chk_io a d h1 h2 h3 h4]
  rfl

/-- Total-level write characterization on high RAM. -/
theorem Memory.write_eq_hram (m : Memory) (a d : Nat) (h1 : 0xFF80 ≤ a) (h2 : a ≤ 0xFFFE) :
    m.write a d = { m with hram := Function.update m.hram (a - 0xFF80) d } := by
  unfold Memory.write
  rw [m.write_chk_hram a d h1 h2]
  rfl

/-- Total-level write characterization on the interrupt-enable byte. -/
theorem Memory.write_eq_ie (m : Memory) (a d : Nat) (h : a = 0xFFFF) :
    m.write a d = { m with ie_register := d } := by
  unfold Memory.write
  rw [m.write_chk_ie a d h]
  rfl

/-- Total-level write characterization on undefined write targets. -/
theorem Memory.write_eq_default (m : Memory) (a d : Nat)
    (h : a ≤ 0x7FFF ∨ (0xFEA0 ≤ a ∧ a ≤ 0xFEFF) ∨ 0x10000 ≤ a) :
    m.write a d = m := by
  unfold Memory.write
  rw [m.write_chk_default a d h]
  rfl

/-! ## Claim C6: address-space totality -/

/-- C6: Memory::read and Memory::write are total over the 16-bit address
range: every read yields a byte and every write a successor state (no
array-index panic is reachable); reads in the unusable gap 0xFEA0-0xFEFF
return 0, and writes to the gap or to an address with no defined write
target (the ROM range) leave the state unchanged. -/
theorem memory_total (m : Memory) (address data : Nat) (h : address < 65536) :
    (∃ b, m.read_chk address = some b)
    ∧ (∃ m2, m.write_chk address data = some m2)
    ∧ (0xFEA0 ≤ address → address ≤ 0xFEFF →
        m.read_chk address = some 0 ∧ m.write_chk address data = some m)
    ∧ (address ≤ 0x7FFF → m.write_chk address data = some m) := by
  refine ⟨m.read_chk_total address, m.write_chk_total address data, ?_, ?_⟩
  · intro ha hb
    exact ⟨m.read_chk_default address (Or.inl ⟨ha, hb⟩),
           m.write_chk_default address data (Or.inr (Or.inl ⟨ha, hb⟩))⟩
  · intro ha
    exact m.write_chk_default address data (Or.inl ha)

/-- Witness for `memory_total` at the unusable-gap address 0xFEA0. -/
theorem memory_total_witness :
    Memory.new.read_chk 0xFEA0 = some 0
    ∧ Memory.new.write_chk 0xFEA0 5 = some Memory.new :=
  (memory_total Memory.new 0xFEA0 5 (by norm_num)).2.2.1 (by norm_num) (by norm_num)

/-- Reads outside the OAM window agree on memories that agree outside OAM. -/
theorem read_chk_eq_of_eqButOam {m m2 : Memory} (h : EqButOam m m2) (a : Nat)
    (ha : ¬ (0xFE00 ≤ a ∧ a ≤ 0xFE9F)) :
    m2.read_chk a = m.read_chk a := by
  obtain ⟨e1, e2, e3, e4, e5, e6, e7, e8, e9, e10, e11⟩ := h
  by_cases h1 : a ≤ 0x3FFF
  · rw [m2.read_chk_rom0 a h1, m.read_chk_rom0 a h1, e1]
  by_cases h2 : a ≤ 0x7FFF
  · rw [m2.read_chk_romn a (by omega) h2, m.read_chk_romn a (by omega) h2, e2]
  by_cases h3 : a ≤ 0x9FFF
  · rw [m2.read_chk_vram a (by omega) h3, m.read_chk_vram a (by omega) h3, e3]
  by_cases h4 : a ≤ 0xBFFF
  · rw [m2.read_chk_ext a (by omega) h4, m.read_chk_ext a (by omega) h4, e4]
  by_cases h5 : a ≤ 0xCFFF
  · rw [m2.read_chk_ram0 a (by omega) h5, m.read_chk_ram0 a (by omega) h5, e5]
  by_cases h6 : a ≤ 0xDFFF
  · rw [m2.read_chk_ram1 a (by omega) h6, m.read_chk_ram1 a (by omega) h6, e6]
  by_cases h7 : a ≤ 0xFDFF
  · rw [m2.read_chk_mirror a (by omega) h7, m.read_chk_mirror a (by omega) h7, e7]
  by_cases h8 : a ≤ 0xFEFF
  · rw [m2.read_chk_default a (Or.inl ⟨by omega, h8⟩),
        m.read_chk_default a (Or.inl ⟨by omega, h8⟩)]
  by_cases h9 : a ≤ 0xFF7F
  · rw [m2.read_chk_io a (by omega) h9, m.read_chk_io a (by omega) h9, e8]
  by_cases h10 : a ≤ 0xFFFE
  · rw [m2.read_chk_hram a (by omega) h10, m.read_chk_hram a (by omega) h10, e9]
  by_cases h11 : a = 0xFFFF
  · rw [m2.read_chk_ie a h11, m.read_chk_ie a h11, e10]
  rw [m2.read_chk_default a (Or.inr (by omega)),
      m.read_chk_default a (Or.inr (by omega))]

/-- Behaviour of the DMA copy loop when the source window does not
overlap OAM: it succeeds, fills `oam[0..n)` from the source bytes of the
original state, and touches nothing else. -/
theorem Memory.dma_loop_spec (m : Memory) (base : Nat)
    (hbase : ∀ i, i < 160 → ¬ (0xFE00 ≤ base + i ∧ base + i ≤ 0xFE9F)) :
    ∀ n, n ≤ 160 → ∃ m2, m.dma_loop base n = some m2
      ∧ EqButOam m m2
      ∧ (∀ j, j < n → m2.oam j = m.read (base + j))
      ∧ (∀ j, n ≤ j → m2.oam j = m.oam j) := by
  intro n
  induction n with
  | zero =>
    exact fun _ => ⟨m, rfl, ⟨rfl, rfl, rfl, rfl, rfl, rfl, rfl, rfl, rfl, rfl, rfl⟩,
      fun j hj => absurd hj (by omega), fun j _ => rfl⟩
  | succ k ih =>
    intro hk
    obtain ⟨m1, h1, heq, hlt, hge⟩ := ih (by omega)
    have hread : m1.read_chk (base + k) = some (m.read (base + k)) := by
      rw [read_chk_eq_of_eqButOam heq (base + k) (hbase k (by omega)), m.read_chk_eq]
    refine ⟨{ m1 with oam := Function.update m1.oam k (m.read (base + k)) }, ?_, heq, ?_, ?_⟩
    · simp only [Memory.dma_loop, h1, Option.some_bind, hread, Option.map_some']
    · intro j hj
      by_cases hjk : j = k
      · subst hjk
        simp [Function.update_same]
      · have hjk2 : j < k := by omega
        simp only [Function.update_apply, if_neg hjk]
        exact hlt j hjk2
    · intro j hj
      have hjk : j ≠ k := by omega
      simp only [Function.update_apply, if_neg hjk]
      exact hge j (by omega)

/-- C7: writing a value to the DMA register 0xFF46 immediately copies 160
bytes into OAM from the source page `value * 0x100` (with 0xFE/0xFF
remapped to 0xDE00/0xDF00), leaving the source bytes unchanged; in
particular writing 0xC0 makes OAM equal the bytes at 0xC000-0xC09F. -/
theorem dma_trigger (m : Memory) (v : Nat) (hv : v < 256) :
    (∀ i, i < 160 →
        (m.write 0xFF46 v).read (0xFE00 + i) = m.read (dma_src v + i)
        ∧ (m.write 0xFF46 v).read (dma_src v + i) = m.read (dma_src v + i))
    ∧ dma_src 0xFE = 0xDE00
    ∧ dma_src 0xFF = 0xDF00
    ∧ (v ≤ 0xFD → dma_src v = v * 0x100)
    ∧ (∀ i, i < 160 →
        (m.write 0xFF46 0xC0).read (0xFE00 + i) = m.read (0xC000 + i)) := by
  have key : ∀ w, w < 256 → ∀ i, i < 160 →
      (m.write 0xFF46 w).read (0xFE00 + i) = m.read (dma_src w + i)
      ∧ (m.write 0xFF46 w).read (dma_src w + i) = m.read (dma_src w + i) := by
    intro w hw
    have hbase : ∀ i, i < 160 → ¬ (0xFE00 ≤ dma_src w + i ∧ dma_src w + i ≤ 0xFE9F) := by
      intro i hi
      unfold dma_src
      split_ifs with hfe hff
      · omega
      · omega
      · rw [Nat.mod_eq_of_lt (by omega)]
        omega
    obtain ⟨m2, hm2, heq, hlt, hge⟩ := m.dma_loop_spec (dma_src w) hbase 160 le_rfl
    have hw2 : m.write 0xFF46 w = m2 := by
      unfold Memory.write
      rw [m.write_chk_ff46 w]
      unfold Memory.dma_transfer
      rw [hm2]
      rfl
    intro i hi
    constructor
    · rw [hw2]
      have hoam : m2.read (0xFE00 + i) = m2.oam i := by
        unfold Memory.read
        rw [m2.read_chk_oam (0xFE00 + i) (by omega) (by omega)]
        simp
      rw [hoam]
      exact hlt i hi
    · rw [hw2]
      unfold Memory.read
      rw [read_chk_eq_of_eqButOam heq (dma_src w + i) (hbase i hi)]
  refine ⟨key v hv, by norm_num [dma_src], by norm_num [dma_src], ?_, ?_⟩
  · intro hvfd
    unfold dma_src
    rw [neg_branch (by omega), neg_branch (by omega)]
    exact Nat.mod_eq_of_lt (by omega)
  · intro i hi
    have h := (key 0xC0 (by norm_num) i hi).1
    have hsrc : dma_src 0xC0 = 0xC000 := by norm_num [dma_src]
    rwa [hsrc] at h

/-- Witness for `dma_trigger` at the zeroed memory with source page 0xC0. -/
theorem dma_trigger_witness :
    (Memory.new.write 0xFF46 0xC0).read (0xFE00 + 0) = Memory.new.read (0xC000 + 0) :=
  (dma_trigger Memory.new 0xC0 (by norm_num)).2.2.2.2 0 (by norm_num)

/-- C8 counterexample: with the transfer-enable bit of 0xFF02 set (value
0x80) the claim requires the byte written to 0xFF01 to be diverted to the
diagnostic sink instead of stored, but the source only diverts when 0xFF02
reads exactly 0x81: here the byte is stored at 0xFF01 and nothing reaches
the sink. -/
theorem serial_divert_counterexample :
    Nat.testBit (serial_mem_enable.read 0xFF02) 7 = true
    ∧ (serial_mem_enable.write 0xFF01 0x41).read 0xFF01 = 0x41
    ∧ (serial_mem_enable.write 0xFF01 0x41).serial_out = [] := by
  decide

/-- C8 amended: a byte written to the serial-data register 0xFF01 is
diverted to the diagnostic sink (and not stored) exactly when the
serial-control register 0xFF02 reads 0x81 (transfer-enable plus internal
clock); for any other 0xFF02 value — including other values with the
transfer-enable bit set — the byte is stored at 0xFF01 as a plain cell. -/
theorem serial_divert_amended (m : Memory) (data : Nat) :
    (m.read 0xFF02 = 0x81 →
        (m.write 0xFF01 data).serial_out = m.serial_out ++ [data]
        ∧ (m.write 0xFF01 data).io_registers = m.io_registers)
    ∧ (m.read 0xFF02 ≠ 0x81 →
        (m.write 0xFF01 data).serial_out = m.serial_out
        ∧ (m.write 0xFF01 data).io_registers = Function.update m.io_registers 1 data) := by
  have h02 : m.read 0xFF02 = m.io_registers 2 := by
    rw [m.read_eq_io 0xFF02 (by omega) (by omega)]
  constructor
  · intro hc
    rw [h02] at hc
    unfold Memory.write
    rw [m.write_chk_ff01_divert data hc]
    exact ⟨rfl, rfl⟩
  · intro hc
    rw [h02] at hc
    unfold Memory.write
    rw [m.write_chk_ff01_store data hc]
    exact ⟨rfl, rfl⟩

/-- Witness for `serial_divert_amended` in both the divert and the store
situation. -/
theorem serial_divert_amended_witness :
    (serial_mem_81.write 0xFF01 0x41).serial_out = serial_mem_81.serial_out ++ [0x41]
    ∧ (serial_mem_enable.write 0xFF01 0x41).serial_out = serial_mem_enable.serial_out :=
  ⟨((serial_divert_amended serial_mem_81 0x41).1 (by decide)).1,
   ((serial_divert_amended serial_mem_enable 0x41).2 (by decide)).1⟩

/-! ## Timer theorems (claims C4 and C5) -/

/-- Zero sysclk has every selected bit clear, so the derived bit is 0. -/
theorem derived_bit_zero (tac : Nat) : derived_bit tac 0 = 0 := by
  simp [derived_bit]

/-- C4: a TIMA increment happens on a tick exactly when the derived
selected bit (rate-selected sysclk bit ANDed with the enable bit)
transitions 1 → 0: stated for the tick evaluator `sysclk_change`, for a
full machine-cycle tick `inc_sysclk` outside the delayed-overflow window,
for a write to the free-running-counter address 0xFF04 (which resets
sysclk to 0 and immediately re-evaluates the derived bit, so a synthetic
falling edge increments TIMA exactly when the last derived bit was 1),
and for a write to the control register 0xFF07 (whose enable bit is ANDed
into the derived bit before the edge check). -/
theorem timer_falling_edge_iff (t : Timer) (v new_sysclk : Nat) :
    ((t.sysclk_change new_sysclk).tima =
        if t.last_bit = 1 ∧ derived_bit t.tac new_sysclk = 0
        then (t.tima + 1) % 256 else t.tima)
    ∧ (t.tima_cycles_to_irq = 0 →
        (t.inc_sysclk).tima =
          if t.last_bit = 1 ∧ derived_bit t.tac ((t.sysclk + 4) % 65536) = 0
          then (t.tima + 1) % 256 else t.tima)
    ∧ ((t.write_io 0xFF04 v).sysclk = 0
        ∧ (t.write_io 0xFF04 v).tima =
            if t.last_bit = 1 then (t.tima + 1) % 256 else t.tima)
    ∧ ((t.write_io 0xFF07 v).tima =
        if t.last_bit = 1 ∧ t.last_bit &&& ((v &&& 4) >>> 2) = 0
        then (t.tima + 1) % 256 else t.tima) := by
  refine ⟨?_, ?_, ⟨?_, ?_⟩, ?_⟩
  · simp only [Timer.sysclk_change, Timer.fallen_edge]
    split_ifs <;> rfl
  · intro h
    simp only [Timer.inc_sysclk, Timer.sysclk_change, Timer.fallen_edge, h]
    norm_num
    split_ifs <;> rfl
  · simp only [Timer.write_io, Timer.sysclk_change, Timer.fallen_edge]
    norm_num
    split_ifs <;> rfl
  · simp only [Timer.write_io, Timer.sysclk_change, Timer.fallen_edge,
      derived_bit_zero]
    norm_num
    split_ifs <;> simp_all
  · simp only [Timer.write_io, Timer.fallen_edge]
    norm_num
    split_ifs <;> rfl

/-- Witness for the hypotheses of `timer_falling_edge_iff` at the
power-on timer state. -/
theorem timer_falling_edge_iff_witness :
    Timer.new.tima_cycles_to_irq = 0 ∧
    (Timer.new.inc_sysclk).tima =
      (if Timer.new.last_bit = 1
          ∧ derived_bit Timer.new.tac ((Timer.new.sysclk + 4) % 65536) = 0
       then (Timer.new.tima + 1) % 256 else Timer.new.tima) :=
  ⟨by decide, (timer_falling_edge_iff Timer.new 0 0).2.1 (by decide)⟩

/-- C5 counterexample: the claim says a write to the timer register
0xFF05 during the delay/reload window is discarded, but during the delay
cycle the source stores the written value (`if !self.tima_reload_cycle
{ self.tima = val }` fires because `tima_reload_cycle` is only set on the
reload cycle): TIMA becomes 0x42 rather than staying 0. -/
theorem timer_delay_write_not_discarded :
    ¬ ((delay_timer.write_io 0xFF05 0x42).tima = delay_timer.tima) := by
  decide

/-- C5 amended: TIMA overflow raises the interrupt and reloads from TMA
exactly one machine cycle later; a 0xFF05 write during the RELOAD cycle is
discarded, a 0xFF05 write during the DELAY cycle is stored and cancels the
pending interrupt, and a 0xFF06 write during the reload cycle retroactively
becomes the reloaded TIMA value. -/
theorem timer_overflow_window (t : Timer) (v : Nat) :
    (t.tima_cycles_to_irq = 1 →
        (t.inc_sysclk).tima_overflow_irq = true
        ∧ (t.inc_sysclk).tima_reload_cycle = true
        ∧ (¬ (t.last_bit = 1 ∧ derived_bit t.tac ((t.sysclk + 4) % 65536) = 0) →
            (t.inc_sysclk).tima = t.tma))
    ∧ (t.tima_cycles_to_irq = 0 → t.tima = 255 → t.last_bit = 1 →
        derived_bit t.tac ((t.sysclk + 4) % 65536) = 0 →
        (t.inc_sysclk).tima = 0
        ∧ (t.inc_sysclk).tima_cycles_to_irq = 1
        ∧ (t.inc_sysclk).tima_overflow_irq = t.tima_overflow_irq)
    ∧ (t.tima_reload_cycle = true → (t.write_io 0xFF05 v).tima = t.tima)
    ∧ (t.tima_reload_cycle = false → t.tima_cycles_to_irq = 1 →
        (t.write_io 0xFF05 v).tima = v
        ∧ (t.write_io 0xFF05 v).tima_cycles_to_irq = 0)
    ∧ (t.tima_reload_cycle = true →
        (t.write_io 0xFF06 v).tima = v ∧ (t.write_io 0xFF06 v).tma = v) := by
  refine ⟨?_, ?_, ?_, ?_, ?_⟩
  · intro h
    simp only [Timer.inc_sysclk, Timer.sysclk_change, Timer.fallen_edge, h]
    norm_num
    refine ⟨?_, ?_, ?_⟩ <;> split_ifs <;> simp_all
  · intro h h255 hlast hbit
    simp only [Timer.inc_sysclk, Timer.sysclk_change, Timer.fallen_edge, h]
    norm_num
    simp [h255, hlast, hbit]
  · intro h
    simp only [Timer.write_io, h]
    norm_num
    split_ifs <;> rfl
  · intro h h1
    simp only [Timer.write_io, h]
    norm_num
    simp [h1]
  · intro h
    simp only [Timer.write_io, h]
    norm_num

/-- Witness for the hypotheses of `timer_overflow_window`: the delay-cycle
branch at `delay_timer` and the reload-cycle branch at `reload_timer`. -/
theorem timer_overflow_window_witness :
    ((delay_timer.write_io 0xFF05 0x42).tima = 0x42
      ∧ (delay_timer.write_io 0xFF05 0x42).tima_cycles_to_irq = 0)
    ∧ ((reload_timer.write_io 0xFF06 0x37).tima = 0x37
        ∧ (reload_timer.write_io 0xFF06 0x37).tma = 0x37) :=
  ⟨(timer_overflow_window delay_timer 0x42).2.2.2.1 rfl rfl,
   (timer_overflow_window reload_timer 0x37).2.2.2.2 rfl⟩

/-! ## Registers theorems (claim C10) -/

/-- C10: the flag accessors are mutually inconsistent for the carry and
half-carry flags: `set_flag` writes C at bit 4 and H at bit 5 (the
hardware layout), but `get_flag` reads C at bit 5 and H at bit 4, so a
set-then-get round trip fails for C and H starting from F = 0x00. -/
theorem flag_accessor_mismatch :
    ((Registers.new.set_reg Reg.F 0).set_flag Flag.C true).get_flag Flag.C = false
    ∧ ((Registers.new.set_reg Reg.F 0).set_flag Flag.C true).F = 0x10
    ∧ ((Registers.new.set_reg Reg.F 0).set_flag Flag.H true).get_flag Flag.H = false
    ∧ ((Registers.new.set_reg Reg.F 0).set_flag Flag.H true).F = 0x20
    ∧ ((Registers.new.set_reg Reg.F 0).set_flag Flag.Z true).get_flag Flag.Z = true
    ∧ ((Registers.new.set_reg Reg.F 0).set_flag Flag.N true).get_flag Flag.N = true := by
  decide

/-! ## Claim C9: sprite cap -/

/-- Inserting one sprite grows the list by one. -/
theorem spriteInsert_length (s : Sprite) (l : List Sprite) :
    (spriteInsert s l).length = l.length + 1 := by
  induction l with
  | nil => rfl
  | cons t ts ih =>
    unfold spriteInsert
    split_ifs <;> simp [ih]

/-- The sprite sort is a permutation in length. -/
theorem spriteSort_length (l : List Sprite) : (spriteSort l).length = l.length := by
  induction l with
  | nil => rfl
  | cons s ss ih => simp [spriteSort, spriteInsert_length, ih]

/-- The OAM scan loop pushes at most one sprite before returning. -/
theorem PPU.oam_scan_loop_length (m : Memory) (fuel : Nat) :
    ∀ p : PPU, (p.oam_scan_loop m fuel).sprite_buffer.length ≤ p.sprite_buffer.length + 1 := by
  induction fuel with
  | zero => intro p; simp [PPU.oam_scan_loop]
  | succ k ih =>
    intro p
    rw [PPU.oam_scan_loop]
    split_ifs
    all_goals try omega
    all_goals (dsimp only; split <;> first | simp | exact ih _)

/-- C9: an OAMScan step never grows the sprite buffer beyond 10 entries:
from any state with at most 10 buffered sprites (true of every reachable
state, the buffer starting empty each scanline), the buffer still has at
most 10 after `oam_scan` — the length-10 guard stops the scan and the
loop pushes at most one sprite per step. -/
theorem oam_scan_sprite_cap (p : PPU) (m : Memory)
    (h : p.sprite_buffer.length ≤ 10) :
    ((p.oam_scan m).1).sprite_buffer.length ≤ 10 := by
  unfold PPU.oam_scan
  split_ifs with h1 h2
  · simpa [spriteSort_length] using h
  · simpa using h
  · have hlt : p.sprite_buffer.length ≤ 9 := by omega
    have := PPU.oam_scan_loop_length m 40 p
    simpa using by omega

/-- MemSame is reflexive. -/
theorem memSame_rfl (m : Memory) : MemSame m m :=
  ⟨rfl, rfl, rfl, rfl, rfl, rfl, rfl, rfl, rfl, rfl, rfl⟩

/-- MemSame is transitive. -/
theorem memSame_trans {m1 m2 m3 : Memory} (h1 : MemSame m1 m2) (h2 : MemSame m2 m3) :
    MemSame m1 m3 := by
  obtain ⟨a1, a2, a3, a4, a5, a6, a7, a8, a9, a10, a11⟩ := h1
  obtain ⟨b1, b2, b3, b4, b5, b6, b7, b8, b9, b10, b11⟩ := h2
  exact ⟨b1.trans a1, b2.trans a2, b3.trans a3, b4.trans a4, b5.trans a5,
    b6.trans a6, b7.trans a7, b8.trans a8, b9.trans a9, b10.trans a10, b11.trans a11⟩

/-- Writing an ordinary I/O register only changes the I/O block. -/
theorem memSame_write_io (m : Memory) (a d : Nat) (h1 : 0xFF00 ≤ a) (h2 : a ≤ 0xFF7F)
    (h3 : a ≠ 0xFF01) (h4 : a ≠ 0xFF46) : MemSame m (m.write a d) := by
  rw [m.write_eq_io a d h1 h2 h3 h4]
  exact ⟨rfl, rfl, rfl, rfl, rfl, rfl, rfl, rfl, rfl, rfl, rfl⟩

/-- Writing the STAT register only changes the I/O block. -/
theorem memSame_write_ff41 (m : Memory) (d : Nat) : MemSame m (m.write 0xFF41 d) :=
  memSame_write_io m 0xFF41 d (by norm_num) (by norm_num) (by norm_num) (by norm_num)

/-- Writing the LY register only changes the I/O block. -/
theorem memSame_write_ff44 (m : Memory) (d : Nat) : MemSame m (m.write 0xFF44 d) :=
  memSame_write_io m 0xFF44 d (by norm_num) (by norm_num) (by norm_num) (by norm_num)

/-- Memories that agree outside the I/O block read the same bytes at
every plain RAM cell. -/
theorem read_eq_of_memSame {m m2 : Memory} (h : MemSame m m2) (b : Nat)
    (hb : plainRAM b) : m2.read b = m.read b := by
  obtain ⟨e1, e2, e3, e4, e5, e6, e7, e8, e9, e10, e11⟩ := h
  rcases hb with ⟨hb1, hb2⟩ | ⟨hb1, hb2⟩
  · -- the contiguous RAM span
    by_cases hB0 : b ≤ 0x9FFF
    · rw [Memory.read_eq_vram m2 b (by omega) (by omega),
          Memory.read_eq_vram m b (by omega) (by omega), e3]
    by_cases hB1 : b ≤ 0xBFFF
    · rw [Memory.read_eq_ext m2 b (by omega) (by omega),
          Memory.read_eq_ext m b (by omega) (by omega), e4]
    by_cases hB2 : b ≤ 0xCFFF
    · rw [Memory.read_eq_ram0 m2 b (by omega) (by omega),
          Memory.read_eq_ram0 m b (by omega) (by omega), e5]
    by_cases hB3 : b ≤ 0xDFFF
    · rw [Memory.read_eq_ram1 m2 b (by omega) (by omega),
          Memory.read_eq_ram1 m b (by omega) (by omega), e6]
    by_cases hB4 : b ≤ 0xFDFF
    · rw [Memory.read_eq_mirror m2 b (by omega) (by omega),
          Memory.read_eq_mirror m b (by omega) (by omega), e7]
    rw [Memory.read_eq_oam m2 b (by omega) (by omega),
        Memory.read_eq_oam m b (by omega) (by omega), e8]
  · rw [Memory.read_eq_hram m2 b (by omega) (by omega),
        Memory.read_eq_hram m b (by omega) (by omega), e9]

/-- Writing the same byte to the same plain RAM cell preserves MemSame. -/
theorem memSame_write_congr {m m2 : Memory} (h : MemSame m m2) (a d : Nat)
    (ha : plainRAM a) : MemSame (m.write a d) (m2.write a d) := by
  obtain ⟨e1, e2, e3, e4, e5, e6, e7, e8, e9, e10, e11⟩ := h
  rcases ha with ⟨ha1, ha2⟩ | ⟨ha1, ha2⟩
  · -- the contiguous RAM span
    by_cases hA0 : a ≤ 0x9FFF
    · rw [Memory.write_eq_vram m a d (by omega) (by omega),
          Memory.write_eq_vram m2 a d (by omega) (by omega)]
      exact ⟨e1, e2, by rw [e3], e4, e5, e6, e7, e8, e9, e10, e11⟩
    by_cases hA1 : a ≤ 0xBFFF
    · rw [Memory.write_eq_ext m a d (by omega) (by omega),
          Memory.write_eq_ext m2 a d (by omega) (by omega)]
      exact ⟨e1, e2, e3, by rw [e4], e5, e6, e7, e8, e9, e10, e11⟩
    by_cases hA2 : a ≤ 0xCFFF
    · rw [Memory.write_eq_ram0 m a d (by omega) (by omega),
          Memory.write_eq_ram0 m2 a d (by omega) (by omega)]
      exact ⟨e1, e2, e3, e4, by rw [e5], e6, e7, e8, e9, e10, e11⟩
    by_cases hA3 : a ≤ 0xDFFF
    · rw [Memory.write_eq_ram1 m a d (by omega) (by omega),
          Memory.write_eq_ram1 m2 a d (by omega) (by omega)]
      exact ⟨e1, e2, e3, e4, e5, by rw [e6], e7, e8, e9, e10, e11⟩
    by_cases hA4 : a ≤ 0xFDFF
    · rw [Memory.write_eq_mirror m a d (by omega) (by omega),
          Memory.write_eq_mirror m2 a d (by omega) (by omega)]
      exact ⟨e1, e2, e3, e4, e5, e6, by rw [e7], e8, e9, e10, e11⟩
    rw [Memory.write_eq_oam m a d (by omega) (by omega),
        Memory.write_eq_oam m2 a d (by omega) (by omega)]
    exact ⟨e1, e2, e3, e4, e5, e6, e7, by rw [e8], e9, e10, e11⟩
  · rw [Memory.write_eq_hram m a d (by omega) (by omega),
        Memory.write_eq_hram m2 a d (by omega) (by omega)]
    exact ⟨e1, e2, e3, e4, e5, e6, e7, e8, by rw [e9], e10, e11⟩

/-- Read-after-write law on plain RAM: writing cell `a` stores the byte
there and changes no other plain RAM cell. -/
theorem write_read_plain (m : Memory) (a b d : Nat) (ha : plainRAM a)
    (hb : plainRAM b) :
    (m.write a d).read b = if b = a then d else m.read b := by
  rcases ha with ⟨ha1, ha2⟩ | ⟨ha1, ha2⟩
  · -- a in the contiguous RAM span
    by_cases hA0 : a ≤ 0x9FFF
    · rw [Memory.write_eq_vram m a d (by omega) (by omega)]
      rcases hb with ⟨hb1, hb2⟩ | ⟨hb1, hb2⟩
      · -- b in the contiguous RAM span
        by_cases hB0 : b ≤ 0x9FFF
        · rw [Memory.read_eq_vram _ b (by omega) (by omega)]
          dsimp only
          rw [Function.update_apply]
          by_cases hab : b = a
          · rw [if_pos (by omega), if_pos hab]
          · rw [neg_branch (by omega), if_neg hab,
                Memory.read_eq_vram m b (by omega) (by omega)]
        by_cases hB1 : b ≤ 0xBFFF
        · have hab : b ≠ a := by omega
          rw [Memory.read_eq_ext _ b (by omega) (by omega), if_neg hab,
              Memory.read_eq_ext m b (by omega) (by omega)]
        by_cases hB2 : b ≤ 0xCFFF
        · have hab : b ≠ a := by omega
          rw [Memory.read_eq_ram0 _ b (by omega) (by omega), if_neg hab,
              Memory.read_eq_ram0 m b (by omega) (by omega)]
        by_cases hB3 : b ≤ 0xDFFF
        · have hab : b ≠ a := by omega
          rw [Memory.read_eq_ram1 _ b (by omega) (by omega), if_neg hab,
              Memory.read_eq_ram1 m b (by omega) (by omega)]
        by_cases hB4 : b ≤ 0xFDFF
        · have hab : b ≠ a := by omega
          rw [Memory.read_eq_mirror _ b (by omega) (by omega), if_neg hab,
              Memory.read_eq_mirror m b (by omega) (by omega)]
        have hab : b ≠ a := by omega
        rw [Memory.read_eq_oam _ b (by omega) (by omega), if_neg hab,
            Memory.read_eq_oam m b (by omega) (by omega)]
      · have hab : b ≠ a := by omega
        rw [Memory.read_eq_hram _ b (by omega) (by omega), if_neg hab,
            Memory.read_eq_hram m b (by omega) (by omega)]
    by_cases hA1 : a ≤ 0xBFFF
    · rw [Memory.write_eq_ext m a d (by omega) (by omega)]
      rcases hb with ⟨hb1, hb2⟩ | ⟨hb1, hb2⟩
      · -- b in the contiguous RAM span
        by_cases hB0 : b ≤ 0x9FFF
        · have hab : b ≠ a := by omega
          rw [Memory.read_eq_vram _ b (by omega) (by omega), if_neg hab,
              Memory.read_eq_vram m b (by omega) (by omega)]
        by_cases hB1 : b ≤ 0xBFFF
        · rw [Memory.read_eq_ext _ b (by omega) (by omega)]
          dsimp only
          rw [Function.update_apply]
          by_cases hab : b = a
          · rw [if_pos (by omega), if_pos hab]
          · rw [neg_branch (by omega), if_neg hab,
                Memory.read_eq_ext m b (by omega) (by omega)]
        by_cases hB2 : b ≤ 0xCFFF
        · have hab : b ≠ a := by omega
          rw [Memory.read_eq_ram0 _ b (by omega) (by omega), if_neg hab,
              Memory.read_eq_ram0 m b (by omega) (by omega)]
        by_cases hB3 : b ≤ 0xDFFF
        · have hab : b ≠ a := by omega
          rw [Memory.read_eq_ram1 _ b (by omega) (by omega), if_neg hab,
              Memory.read_eq_ram1 m b (by omega) (by omega)]
        by_cases hB4 : b ≤ 0xFDFF
        · have hab : b ≠ a := by omega
          rw [Memory.read_eq_mirror _ b (by omega) (by omega), if_neg hab,
              Memory.read_eq_mirror m b (by omega) (by omega)]
        have hab : b ≠ a := by omega
        rw [Memory.read_eq_oam _ b (by omega) (by omega), if_neg hab,
            Memory.read_eq_oam m b (by omega) (by omega)]
      · have hab : b ≠ a := by omega
        rw [Memory.read_eq_hram _ b (by omega) (by omega), if_neg hab,
            Memory.read_eq_hram m b (by omega) (by omega)]
    by_cases hA2 : a ≤ 0xCFFF
    · rw [Memory.write_eq_ram0 m a d (by omega) (by omega)]
      rcases hb with ⟨hb1, hb2⟩ | ⟨hb1, hb2⟩
      · -- b in the contiguous RAM span
        by_cases hB0 : b ≤ 0x9FFF
        · have hab : b ≠ a := by omega
          rw [Memory.read_eq_vram _ b (by omega) (by omega), if_neg hab,
              Memory.read_eq_vram m b (by omega) (by omega)]
        by_cases hB1 : b ≤ 0xBFFF
        · have hab : b ≠ a := by omega
          rw [Memory.read_eq_ext _ b (by omega) (by omega), if_neg hab,
              Memory.read_eq_ext m b (by omega) (by omega)]
        by_cases hB2 : b ≤ 0xCFFF
        · rw [Memory.read_eq_ram0 _ b (by omega) (by omega)]
          dsimp only
          rw [Function.update_apply]
          by_cases hab : b = a
          · rw [if_pos (by omega), if_pos hab]
          · rw [neg_branch (by omega), if_neg hab,
                Memory.read_eq_ram0 m b (by omega) (by omega)]
        by_cases hB3 : b ≤ 0xDFFF
        · have hab : b ≠ a := by omega
          rw [Memory.read_eq_ram1 _ b (by omega) (by omega), if_neg hab,
              Memory.read_eq_ram1 m b (by omega) (by omega)]
        by_cases hB4 : b ≤ 0xFDFF
        · have hab : b ≠ a := by omega
          rw [Memory.read_eq_mirror _ b (by omega) (by omega), if_neg hab,
              Memory.read_eq_mirror m b (by omega) (by omega)]
        have hab : b ≠ a := by omega
        rw [Memory.read_eq_oam _ b (by omega) (by omega), if_neg hab,
            Memory.read_eq_oam m b (by omega) (by omega)]
      · have hab : b ≠ a := by omega
        rw [Memory.read_eq_hram _ b (by omega) (by omega), if_neg hab,
            Memory.read_eq_hram m b (by omega) (by omega)]
    by_cases hA3 : a ≤ 0xDFFF
    · rw [Memory.write_eq_ram1 m a d (by omega) (by omega)]
      rcases hb with ⟨hb1, hb2⟩ | ⟨hb1, hb2⟩
      · -- b in the contiguous RAM span
        by_cases hB0 : b ≤ 0x9FFF
        · have hab : b ≠ a := by omega
          rw [Memory.read_eq_vram _ b (by omega) (by omega), if_neg hab,
              Memory.read_eq_vram m b (by omega) (by omega)]
        by_cases hB1 : b ≤ 0xBFFF
        · have hab : b ≠ a := by omega
          rw [Memory.read_eq_ext _ b (by omega) (by omega), if_neg hab,
              Memory.read_eq_ext m b (by omega) (by omega)]
        by_cases hB2 : b ≤ 0xCFFF
        · have hab : b ≠ a := by omega
          rw [Memory.read_eq_ram0 _ b (by omega) (by omega), if_neg hab,
              Memory.read_eq_ram0 m b (by omega) (by omega)]
        by_cases hB3 : b ≤ 0xDFFF
        · rw [Memory.read_eq_ram1 _ b (by omega) (by omega)]
          dsimp only
          rw [Function.update_apply]
          by_cases hab : b = a
          · rw [if_pos (by omega), if_pos hab]
          · rw [neg_branch (by omega), if_neg hab,
                Memory.read_eq_ram1 m b (by omega) (by omega)]
        by_cases hB4 : b ≤ 0xFDFF
        · have hab : b ≠ a := by omega
          rw [Memory.read_eq_mirror _ b (by omega) (by omega), if_neg hab,
              Memory.read_eq_mirror m b (by omega) (by omega)]
        have hab : b ≠ a := by omega
        rw [Memory.read_eq_oam _ b (by omega) (by omega), if_neg hab,
            Memory.read_eq_oam m b (by omega) (by omega)]
      · have hab : b ≠ a := by omega
        rw [Memory.read_eq_hram _ b (by omega) (by omega), if_neg hab,
            Memory.read_eq_hram m b (by omega) (by omega)]
    by_cases hA4 : a ≤ 0xFDFF
    · rw [Memory.write_eq_mirror m a d (by omega) (by omega)]
      rcases hb with ⟨hb1, hb2⟩ | ⟨hb1, hb2⟩
      · -- b in the contiguous RAM span
        by_cases hB0 : b ≤ 0x9FFF
        · have hab : b ≠ a := by omega
          rw [Memory.read_eq_vram _ b (by omega) (by omega), if_neg hab,
              Memory.read_eq_vram m b (by omega) (by omega)]
        by_cases hB1 : b ≤ 0xBFFF
        · have hab : b ≠ a := by omega
          rw [Memory.read_eq_ext _ b (by omega) (by omega), if_neg hab,
              Memory.read_eq_ext m b (by omega) (by omega)]
        by_cases hB2 : b ≤ 0xCFFF
        · have hab : b ≠ a := by omega
          rw [Memory.read_eq_ram0 _ b (by omega) (by omega), if_neg hab,
              Memory.read_eq_ram0 m b (by omega) (by omega)]
        by_cases hB3 : b ≤ 0xDFFF
        · have hab : b ≠ a := by omega
          rw [Memory.read_eq_ram1 _ b (by omega) (by omega), if_neg hab,
              Memory.read_eq_ram1 m b (by omega) (by omega)]
        by_cases hB4 : b ≤ 0xFDFF
        · rw [Memory.read_eq_mirror _ b (by omega) (by omega)]
          dsimp only
          rw [Function.update_apply]
          by_cases hab : b = a
          · rw [if_pos (by omega), if_pos hab]
          · rw [neg_branch (by omega), if_neg hab,
                Memory.read_eq_mirror m b (by omega) (by omega)]
        have hab : b ≠ a := by omega
        rw [Memory.read_eq_oam _ b (by omega) (by omega), if_neg hab,
            Memory.read_eq_oam m b (by omega) (by omega)]
      · have hab : b ≠ a := by omega
        rw [Memory.read_eq_hram _ b (by omega) (by omega), if_neg hab,
            Memory.read_eq_hram m b (by omega) (by omega)]
    rw [Memory.write_eq_oam m a d (by omega) (by omega)]
    rcases hb with ⟨hb1, hb2⟩ | ⟨hb1, hb2⟩
    · -- b in the contiguous RAM span
      by_cases hB0 : b ≤ 0x9FFF
      · have hab : b ≠ a := by omega
        rw [Memory.read_eq_vram _ b (by omega) (by omega), if_neg hab,
            Memory.read_eq_vram m b (by omega) (by omega)]
      by_cases hB1 : b ≤ 0xBFFF
      · have hab : b ≠ a := by omega
        rw [Memory.read_eq_ext _ b (by omega) (by omega), if_neg hab,
            Memory.read_eq_ext m b (by omega) (by omega)]
      by_cases hB2 : b ≤ 0xCFFF
      · have hab : b ≠ a := by omega
        rw [Memory.read_eq_ram0 _ b (by omega) (by omega), if_neg hab,
            Memory.read_eq_ram0 m b (by omega) (by omega)]
      by_cases hB3 : b ≤ 0xDFFF
      · have hab : b ≠ a := by omega
        rw [Memory.read_eq_ram1 _ b (by omega) (by omega), if_neg hab,
            Memory.read_eq_ram1 m b (by omega) (by omega)]
      by_cases hB4 : b ≤ 0xFDFF
      · have hab : b ≠ a := by omega
        rw [Memory.read_eq_mirror _ b (by omega) (by omega), if_neg hab,
            Memory.read_eq_mirror m b (by omega) (by omega)]
      rw [Memory.read_eq_oam _ b (by omega) (by omega)]
      dsimp only
      rw [Function.update_apply]
      by_cases hab : b = a
      · rw [if_pos (by omega), if_pos hab]
      · rw [neg_branch (by omega), if_neg hab,
            Memory.read_eq_oam m b (by omega) (by omega)]
    · have hab : b ≠ a := by omega
      rw [Memory.read_eq_hram _ b (by omega) (by omega), if_neg hab,
          Memory.read_eq_hram m b (by omega) (by omega)]
  · rw [Memory.write_eq_hram m a d (by omega) (by omega)]
    rcases hb with ⟨hb1, hb2⟩ | ⟨hb1, hb2⟩
    · -- b in the contiguous RAM span
      by_cases hB0 : b ≤ 0x9FFF
      · have hab : b ≠ a := by omega
        rw [Memory.read_eq_vram _ b (by omega) (by omega), if_neg hab,
            Memory.read_eq_vram m b (by omega) (by omega)]
      by_cases hB1 : b ≤ 0xBFFF
      · have hab : b ≠ a := by omega
        rw [Memory.read_eq_ext _ b (by omega) (by omega), if_neg hab,
            Memory.read_eq_ext m b (by omega) (by omega)]
      by_cases hB2 : b ≤ 0xCFFF
      · have hab : b ≠ a := by omega
        rw [Memory.read_eq_ram0 _ b (by omega) (by omega), if_neg hab,
            Memory.read_eq_ram0 m b (by omega) (by omega)]
      by_cases hB3 : b ≤ 0xDFFF
      · have hab : b ≠ a := by omega
        rw [Memory.read_eq_ram1 _ b (by omega) (by omega), if_neg hab,
            Memory.read_eq_ram1 m b (by omega) (by omega)]
      by_cases hB4 : b ≤ 0xFDFF
      · have hab : b ≠ a := by omega
        rw [Memory.read_eq_mirror _ b (by omega) (by omega), if_neg hab,
            Memory.read_eq_mirror m b (by omega) (by omega)]
      have hab : b ≠ a := by omega
      rw [Memory.read_eq_oam _ b (by omega) (by omega), if_neg hab,
          Memory.read_eq_oam m b (by omega) (by omega)]
    · rw [Memory.read_eq_hram _ b (by omega) (by omega)]
      dsimp only
      rw [Function.update_apply]
      by_cases hab : b = a
      · rw [if_pos (by omega), if_pos hab]
      · rw [neg_branch (by omega), if_neg hab,
            Memory.read_eq_hram m b (by omega) (by omega)]

/-- The LY increment only writes the I/O block. -/
theorem memSame_inc_ly (p : PPU) (m : Memory) : MemSame m (p.inc_ly m).2 :=
  memSame_write_ff44 m _

/-- Entering VBlank only writes the I/O block. -/
theorem memSame_set_to_v_blank (p : PPU) (m : Memory) :
    MemSame m (p.set_to_v_blank m).2 :=
  memSame_write_ff41 m _

/-- The HBlank step only writes the I/O block. -/
theorem memSame_h_blank (p : PPU) (m : Memory) : MemSame m (p.h_blank m).2 := by
  unfold PPU.h_blank
  dsimp only
  split_ifs <;>
    first
      | exact memSame_rfl _
      | exact memSame_trans (memSame_set_to_v_blank _ _) (memSame_inc_ly _ _)
      | exact memSame_trans (memSame_write_ff41 _ _) (memSame_inc_ly _ _)

/-- The VBlank step only writes the I/O block. -/
theorem memSame_v_blank (p : PPU) (m : Memory) : MemSame m (p.v_blank m).2 := by
  unfold PPU.v_blank
  dsimp only
  split_ifs <;>
    first
      | exact memSame_rfl _
      | exact memSame_inc_ly _ _
      | exact memSame_write_ff44 _ _
      | exact memSame_trans (memSame_write_ff44 _ _) (memSame_inc_ly _ _)

/-- The OAM scan step only writes the I/O block (the scan loop itself
never writes memory). -/
theorem memSame_oam_scan (p : PPU) (m : Memory) : MemSame m (p.oam_scan m).2 := by
  unfold PPU.oam_scan
  dsimp only
  split_ifs <;>
    first
      | exact memSame_rfl _
      | exact memSame_write_ff41 _ _

/-- The background/window fetch step only writes the I/O block (its
fetches and the LCD push only read memory). -/
theorem memSame_mode_3_bgwin_fetch (p : PPU) (m : Memory) :
    MemSame m (p.mode_3_bgwin_fetch m).2 := by
  unfold PPU.mode_3_bgwin_fetch
  try dsimp only
  split_ifs <;>
    first
      | exact memSame_rfl _
      | exact memSame_write_ff41 _ _

/-- The LY=LYC STAT prologue only writes the I/O block. -/
theorem memSame_step_stat_check (p : PPU) (m : Memory) :
    MemSame m (p.step_stat_check m).2 := by
  unfold PPU.step_stat_check
  try dsimp only
  split_ifs <;>
    first
      | exact memSame_rfl _
      | exact memSame_write_ff41 _ _

/-- One PPU dot only writes the I/O block. -/
theorem memSame_step (p : PPU) (m : Memory) : MemSame m (p.step m).2 := by
  unfold PPU.step
  dsimp only
  split_ifs <;>
    first
      | exact memSame_step_stat_check _ _
      | exact memSame_trans (memSame_step_stat_check _ _) (memSame_h_blank _ _)
      | exact memSame_trans (memSame_step_stat_check _ _) (memSame_v_blank _ _)
      | exact memSame_trans (memSame_step_stat_check _ _) (memSame_oam_scan _ _)
      | exact memSame_trans (memSame_step_stat_check _ _) (memSame_mode_3_bgwin_fetch _ _)

/-- One PPU machine-cycle tick (four dots) only writes the I/O block. -/
theorem memSame_tick (p : PPU) (m : Memory) : MemSame m (p.tick m).2 := by
  unfold PPU.tick
  dsimp only
  exact memSame_trans (memSame_step _ _)
    (memSame_trans (memSame_step _ _)
      (memSame_trans (memSame_step _ _) (memSame_step _ _)))

/-- A machine cycle does not move SP. -/
theorem CPU.m_cycle_sp (c : CPU) : c.m_cycle.sp = c.sp := rfl

/-- A machine cycle (the PPU tick) only writes the I/O block. -/
theorem CPU.m_cycle_memSame (c : CPU) : MemSame c.memory c.m_cycle.memory :=
  memSame_tick _ _

/-- A CPU write to a non-timer address does not move SP. -/
theorem CPU.write_plain_sp (c : CPU) (a d : Nat)
    (ha : ¬ (0xFF04 ≤ a ∧ a ≤ 0xFF07)) : (c.write a d).sp = c.sp := by
  unfold CPU.write
  rw [if_neg ha]
  rfl

/-- A CPU write to a non-timer address performs the memory write and then
a machine cycle, which only touches the I/O block beyond it. -/
theorem CPU.write_plain_memSame (c : CPU) (a d : Nat)
    (ha : ¬ (0xFF04 ≤ a ∧ a ≤ 0xFF07)) :
    MemSame (c.memory.write a d) (c.write a d).memory := by
  unfold CPU.write
  rw [if_neg ha]
  exact CPU.m_cycle_memSame _

/-- A push leg leaves SP at the decremented address. -/
theorem CPU.push_byte_sp (c : CPU) (b : Nat)
    (hio : ¬ (0xFF04 ≤ (c.sp + 65535) % 65536 ∧ (c.sp + 65535) % 65536 ≤ 0xFF07)) :
    (c.push_byte b).sp = (c.sp + 65535) % 65536 := by
  unfold CPU.push_byte
  exact CPU.write_plain_sp _ _ _ hio

/-- A push leg's memory is the single-byte write, up to the I/O block. -/
theorem CPU.push_byte_memSame (c : CPU) (b : Nat)
    (hio : ¬ (0xFF04 ≤ (c.sp + 65535) % 65536 ∧ (c.sp + 65535) % 65536 ≤ 0xFF07)) :
    MemSame (c.memory.write ((c.sp + 65535) % 65536) b) (c.push_byte b).memory :=
  CPU.write_plain_memSame { c with sp := (c.sp + 65535) % 65536 }
    ((c.sp + 65535) % 65536) b hio

/-- One SP-decrement-and-write leg of stack_push, characterized. -/
theorem stack_push_spec (c : CPU) (num : Nat) (hsp : c.sp < 65536)
    (h1 : plainRAM ((c.sp + 65535) % 65536))
    (h2 : plainRAM ((c.sp + 65534) % 65536)) :
    (c.stack_push num).sp = (c.sp + 65534) % 65536
    ∧ MemSame
        ((c.memory.write ((c.sp + 65535) % 65536) (num / 256 % 256)).write
          ((c.sp + 65534) % 65536) (num % 256))
        (c.stack_push num).memory := by
  have hio1 : ¬ (0xFF04 ≤ (c.sp + 65535) % 65536 ∧ (c.sp + 65535) % 65536 ≤ 0xFF07) := by
    rcases h1 with ⟨x, y⟩ | ⟨x, y⟩ <;> omega
  have hio2 : ¬ (0xFF04 ≤ (c.sp + 65534) % 65536 ∧ (c.sp + 65534) % 65536 ≤ 0xFF07) := by
    rcases h2 with ⟨x, y⟩ | ⟨x, y⟩ <;> omega
  have hmod : ((c.sp + 65535) % 65536 + 65535) % 65536 = (c.sp + 65534) % 65536 := by
    omega
  have e : c.stack_push num = (c.push_byte (num / 256 % 256)).push_byte (num % 256) := rfl
  rw [e]
  set C1 := c.push_byte (num / 256 % 256) with hC1
  have s1 : C1.sp = (c.sp + 65535) % 65536 := CPU.push_byte_sp c _ hio1
  have m1 : MemSame (c.memory.write ((c.sp + 65535) % 65536) (num / 256 % 256)) C1.memory :=
    CPU.push_byte_memSame c _ hio1
  have hioC1 : ¬ (0xFF04 ≤ (C1.sp + 65535) % 65536 ∧ (C1.sp + 65535) % 65536 ≤ 0xFF07) := by
    rw [s1, hmod]; exact hio2
  have s2 : (C1.push_byte (num % 256)).sp = (C1.sp + 65535) % 65536 :=
    CPU.push_byte_sp C1 _ hioC1
  have m2 : MemSame (C1.memory.write ((C1.sp + 65535) % 65536) (num % 256))
      (C1.push_byte (num % 256)).memory := CPU.push_byte_memSame C1 _ hioC1
  rw [s1, hmod] at m2
  refine ⟨by rw [s2, s1, hmod], ?_⟩
  exact memSame_trans (memSame_write_congr m1 _ _ h2) m2

/-- stack_pop characterized: it returns the two bytes at SP and SP+1 of
the entry memory (high at SP+1, low at SP) and advances SP by two. -/
theorem stack_pop_spec (c : CPU) (hsp : c.sp < 65536)
    (h1 : plainRAM c.sp) (h2 : plainRAM ((c.sp + 1) % 65536)) :
    (c.stack_pop).1
      = c.memory.read ((c.sp + 1) % 65536) * 256 + c.memory.read c.sp
    ∧ (c.stack_pop).2.sp = (c.sp + 2) % 65536 := by
  have hj1 : ¬ (c.sp = 0xFF00) := by rcases h1 with ⟨x, y⟩ | ⟨x, y⟩ <;> omega
  have hio1 : ¬ (0xFF04 ≤ c.sp ∧ c.sp ≤ 0xFF07) := by
    rcases h1 with ⟨x, y⟩ | ⟨x, y⟩ <;> omega
  have hj2 : ¬ ((c.sp + 1) % 65536 = 0xFF00) := by
    rcases h2 with ⟨x, y⟩ | ⟨x, y⟩ <;> omega
  have hio2 : ¬ (0xFF04 ≤ (c.sp + 1) % 65536 ∧ (c.sp + 1) % 65536 ≤ 0xFF07) := by
    rcases h2 with ⟨x, y⟩ | ⟨x, y⟩ <;> omega
  have hmod2 : ((c.sp + 1) % 65536 + 1) % 65536 = (c.sp + 2) % 65536 := by omega
  unfold CPU.stack_pop CPU.read
  dsimp only
  rw [if_neg hj1, if_neg hio1]
  dsimp only [CPU.m_cycle]
  rw [if_neg hj2, if_neg hio2, hmod2]
  refine ⟨?_, rfl⟩
  have hread : ∀ m2 : Memory, MemSame c.memory m2 →
      m2.read ((c.sp + 1) % 65536) = c.memory.read ((c.sp + 1) % 65536) :=
    fun m2 h => read_eq_of_memSame h _ h2
  rw [hread _ (memSame_trans (memSame_tick _ _) (memSame_tick _ _))]

/-- C3: for every 16-bit value v and every SP whose two decremented
target cells are plain RAM, stack_push v followed immediately by
stack_pop returns v and restores SP; the push leaves the high byte at
SP-1 and the low byte at SP-2, with SP ending at SP-2. -/
theorem stack_roundtrip (c : CPU) (v : Nat) (hv : v < 65536) (hsp : c.sp < 65536)
    (h1 : plainRAM ((c.sp + 65535) % 65536))
    (h2 : plainRAM ((c.sp + 65534) % 65536)) :
    ((c.stack_push v).stack_pop).1 = v
    ∧ ((c.stack_push v).stack_pop).2.sp = c.sp
    ∧ (c.stack_push v).sp = (c.sp + 65534) % 65536
    ∧ (c.stack_push v).memory.read ((c.sp + 65535) % 65536) = v / 256 % 256
    ∧ (c.stack_push v).memory.read ((c.sp + 65534) % 65536) = v % 256 := by
  obtain ⟨hsp2, hmem⟩ := stack_push_spec c v hsp h1 h2
  have hne : (c.sp + 65535) % 65536 ≠ (c.sp + 65534) % 65536 := by omega
  have hread1 : (c.stack_push v).memory.read ((c.sp + 65535) % 65536) = v / 256 % 256 := by
    rw [read_eq_of_memSame hmem _ h1,
        write_read_plain _ _ _ _ h2 h1, if_neg hne,
        write_read_plain _ _ _ _ h1 h1, if_pos rfl]
  have hread2 : (c.stack_push v).memory.read ((c.sp + 65534) % 65536) = v % 256 := by
    rw [read_eq_of_memSame hmem _ h2,
        write_read_plain _ _ _ _ h2 h2, if_pos rfl]
  have hinc : ((c.stack_push v).sp + 1) % 65536 = (c.sp + 65535) % 65536 := by
    rw [hsp2]; omega
  have hsp2lt : (c.stack_push v).sp < 65536 := by rw [hsp2]; omega
  have hpop := stack_pop_spec (c.stack_push v) hsp2lt
    (by rw [hsp2]; exact h2) (by rw [hinc]; exact h1)
  obtain ⟨hval, hspfin⟩ := hpop
  refine ⟨?_, ?_, hsp2, hread1, hread2⟩
  · rw [hval, hinc, hread1]
    rw [hsp2, hread2]
    omega
  · rw [hspfin, hsp2]
    omega

/-- Witness for `stack_roundtrip` at the power-on CPU (SP = 0xFFFE, the
target cells 0xFFFD/0xFFFC in high RAM) and v = 0xABCD. -/
theorem stack_roundtrip_witness :
    ((CPU.new.stack_push 0xABCD).stack_pop).1 = 0xABCD
    ∧ ((CPU.new.stack_push 0xABCD).stack_pop).2.sp = CPU.new.sp :=
  ⟨(stack_roundtrip CPU.new 0xABCD (by norm_num) (by decide)
      (by right; exact ⟨by decide, by decide⟩) (by right; exact ⟨by decide, by decide⟩)).1,
   (stack_roundtrip CPU.new 0xABCD (by norm_num) (by decide)
      (by right; exact ⟨by decide, by decide⟩) (by right; exact ⟨by decide, by decide⟩)).2.1⟩

/-- Witness for `oam_scan_sprite_cap` at the power-on PPU and memory. -/
theorem oam_scan_sprite_cap_witness :
    ((PPU.new.oam_scan Memory.new).1).sprite_buffer.length ≤ 10 :=
  oam_scan_sprite_cap PPU.new Memory.new (by decide)

/-- C1: with VBlank and Timer simultaneously pending and both enabled
under an active master enable, one poll dispatches VBlank (PC = 0x40)
and leaves Timer queued; a following poll with the master enable
restored dispatches Timer (PC = 0x50) and empties the queue. -/
theorem interrupt_priority :
    (c1_scenario.interrupt_poll).pc = 0x40
    ∧ (c1_scenario.interrupt_poll).interrupt_queue.nodes = [Interrupt.Timer]
    ∧ ({ c1_scenario.interrupt_poll with ime := true }.interrupt_poll).pc = 0x50
    ∧ ({ c1_scenario.interrupt_poll with ime := true }.interrupt_poll).interrupt_queue.nodes
        = [] := by
  exact ⟨by rfl, by rfl, by rfl, by rfl⟩

/-- C2 failing input: POP AF is unmasked (regW_pop_sp writes the popped
low byte into F verbatim), and set_flag only touches bits 4-7, so after
popping F = 0x0F a flag-writing operation (ADD A,B) completes with the
low nibble of F still 0xF, not 0. -/
theorem pop_af_low_nibble_dirty :
    (((c2_scenario.regW_pop_sp RegW.AF).reg_add_reg Reg.A Reg.B).registers.F) % 16
      = 15 := by
  rfl

end Nemulator
